import Mathlib

/-!
# CourseLearn: session gate and login/signup handlers

A shallow embedding of the client-side session code of the repository:

* `frontend/src/App.js`: `ProtectedRoute` (its `checkAuth` effect and its render
  function) and the session event handlers of `App`;
* `frontend/src/pages/auth/Login.js` and `frontend/src/pages/auth/Signup.js`:
  the two `handleSubmit` functions.

JavaScript values are embedded as `JValue`. The built-ins of the host
(`JSON.parse`, `JSON.stringify`, `String(...)`) are not code of the repository;
they are the fields of a `Platform`, and every theorem holds for every platform.
React state is passed explicitly, exceptions are `Except` values, and everything
a handler does to the outside (storage writes, requests, events, timers,
navigation) is recorded in the state it returns.
-/

namespace CourseLearn

/-! ## JavaScript values -/

/-- A JavaScript value as it reaches this code: `undefined`, or a value of the
JSON data model. Numbers are only ever tested for truthiness here. -/
inductive JValue where
  | undefined : JValue
  | null : JValue
  | bool (b : Bool) : JValue
  | num (n : Int) : JValue
  | str (s : String) : JValue
  | arr (items : List JValue) : JValue
  | obj (fields : List (String × JValue)) : JValue

namespace JValue

/-- JavaScript truthiness (`!!v`): `undefined`, `null`, `false`, `0` and `""`
are falsy, every array and object is truthy. -/
def truthy : JValue → Bool
  | undefined => false
  | null => false
  | bool b => b
  | num n => n != 0
  | str s => s != ""
  | arr _ => true
  | obj _ => true

/-- Strict equality `v === s` against a string. -/
def strictEqStr : JValue → String → Bool
  | str t, s => t == s
  | _, _ => false

/-- The value of `a || b`. -/
def orElse (a b : JValue) : JValue :=
  if a.truthy then a else b

end JValue

/-- The name and message of a value thrown and caught in this code, with the
fields the `catch` blocks read: `code`, `response` (status and body) and
`request` (truthy or not). -/
structure ErrorObj where
  message : String
  code : Option String := none
  response : Option (Nat × JValue) := none
  request : Bool := false

/-- The value of `new Error(message)`. -/
def newError (message : String) : ErrorObj :=
  { message := message }

/-- The built-ins of the host this code calls. `parse` is `JSON.parse` (`none`
when it throws a `SyntaxError`), `stringify` is `JSON.stringify` on a truthy
value, `toStr` is the string conversion `setItem` applies to its value. The
three laws are facts of ECMAScript: the empty text and the text `undefined` are
not JSON texts, and converting a string to a string returns it. -/
structure Platform where
  parse : String → Option JValue
  stringify : JValue → String
  toStr : JValue → String
  typeErrorMessage : String
  quotaErrorMessage : String
  parse_empty : parse "" = none
  parse_undefined : parse "undefined" = none
  toStr_str : ∀ s : String, toStr (JValue.str s) = s

/-- Property read `v.key`: a `TypeError` on `undefined` and `null`, the field of
an object, `undefined` where the field is missing or `v` is a primitive or an
array (none of the keys read in this code is a property of those). -/
def getProp (P : Platform) (v : JValue) (key : String) : Except ErrorObj JValue :=
  match v with
  | JValue.undefined => Except.error { message := P.typeErrorMessage }
  | JValue.null => Except.error { message := P.typeErrorMessage }
  | JValue.obj fields => Except.ok ((fields.lookup key).getD JValue.undefined)
  | _ => Except.ok JValue.undefined

/-- Optional property read `v?.key`: `undefined` on `undefined` and `null`. -/
def getPropOpt (v : JValue) (key : String) : JValue :=
  match v with
  | JValue.obj fields => (fields.lookup key).getD JValue.undefined
  | _ => JValue.undefined

/-! ## localStorage -/

/-- The contents of `localStorage`: `getItem key` is `ls key`, `none` for
`null`. -/
abbrev Storage := String → Option String

/-- The storage with no entry. -/
def Storage.empty : Storage := fun _ => none

/-- The contents after a `setItem key value` that the medium accepted. -/
def Storage.put (ls : Storage) (key value : String) : Storage :=
  fun k => if k = key then some value else ls k

/-- The call `localStorage.setItem(key, value)` on a medium that accepts the
write when `accepts key value` and otherwise throws (quota exceeded, storage
disabled) leaving the contents as they were. -/
def setItem (P : Platform) (accepts : String → String → Bool) (ls : Storage)
    (key value : String) : Except ErrorObj Storage :=
  if accepts key value then Except.ok (ls.put key value)
  else Except.error { message := P.quotaErrorMessage }

/-- Falsiness `!s` of the result of `getItem`: `null` or the empty string. -/
def falsyItem : Option String → Bool
  | none => true
  | some s => s == ""

/-! ## ProtectedRoute (App.js) -/

/-- What a `ProtectedRoute` renders. -/
inductive View where
  | spinner : View
  | navigate (path : String) : View
  | children : View
  deriving DecidableEq, Repr

/-- The two state cells of a `ProtectedRoute`: `isAuthorized` is `null`
(`none`), `false` or `true`. -/
structure GateState where
  isAuthorized : Option Bool
  isLoading : Bool
  deriving DecidableEq, Repr

namespace ProtectedRoute

/-- The state at mount: `useState(null)` and `useState(true)`. -/
def pending : GateState :=
  { isAuthorized := none, isLoading := true }

/-- The setter `setIsAuthorized`. -/
def setIsAuthorized (b : Bool) (s : GateState) : GateState :=
  { s with isAuthorized := some b }

/-- The setter `setIsLoading`. -/
def setIsLoading (b : Bool) (s : GateState) : GateState :=
  { s with isLoading := b }

/-- The condition `requiredRole && user.role !== requiredRole`: an unset or
empty `requiredRole` is falsy and `user.role` is then not read; the read throws
when `user` is `null`. -/
def roleMismatch (P : Platform) (requiredRole : Option String) (user : JValue) :
    Except ErrorObj Bool :=
  match requiredRole with
  | none => Except.ok false
  | some required =>
    if required == "" then Except.ok false
    else
      match getProp P user "role" with
      | Except.error e => Except.error e
      | Except.ok role => Except.ok (!(role.strictEqStr required))

/-- The `try` block of `checkAuth`: the state it leaves and how it completed
(normally, also on its early `return`, or by a throw). -/
def checkAuthTry (P : Platform) (requiredRole : Option String) (ls : Storage)
    (s : GateState) : GateState × Except ErrorObj Unit :=
  let token := ls "token"
  let userJson := ls "user"
  if falsyItem token || falsyItem userJson || userJson == some "undefined" then
    (setIsLoading false (setIsAuthorized false s), Except.ok ())
  else
    match P.parse (userJson.getD "") with
    | none => (s, Except.error { message := "SyntaxError" })
    | some user =>
      match roleMismatch P requiredRole user with
      | Except.error e => (s, Except.error e)
      | Except.ok true => (setIsAuthorized false s, Except.ok ())
      | Except.ok false => (setIsAuthorized true s, Except.ok ())

/-- The function `checkAuth`: the `try` block, the `catch` block on a throw,
then the `finally` block. The second component is the exception that escapes
`checkAuth`, if any. -/
def checkAuth (P : Platform) (requiredRole : Option String) (ls : Storage)
    (s : GateState) : GateState × Option ErrorObj :=
  let r := checkAuthTry P requiredRole ls s
  let caught :=
    match r.2 with
    | Except.ok _ => r.1
    | Except.error _ => setIsAuthorized false r.1
  (setIsLoading false caught, none)

/-- The render function of `ProtectedRoute`. -/
def render (s : GateState) : View :=
  if s.isLoading then View.spinner
  else if !(s.isAuthorized == some true) then View.navigate "/login"
  else View.children

/-- The effect `useEffect(() => { ... checkAuth(); }, [requiredRole])` after a
render: `prev` is the dependency list of the previous render (`none` at mount).
`checkAuth` runs at mount and when `requiredRole` has changed, and not
otherwise; the component registers no event listener. -/
def effect (P : Platform) (prev : Option (Option String)) (requiredRole : Option String)
    (ls : Storage) (s : GateState) : GateState :=
  if prev = some requiredRole then s
  else (checkAuth P requiredRole ls s).1

/-- Mounting a `ProtectedRoute`: the first render from the state `pending`,
then its effect. -/
def mount (P : Platform) (requiredRole : Option String) (ls : Storage) : GateState :=
  effect P none requiredRole ls pending

/-- The state after `checkAuth` has run once per element of `runs`, in order,
starting from the state `s`; each run has the `requiredRole` and the storage of
its time. -/
def runChecks (P : Platform) (runs : List (Option String × Storage)) (s : GateState) :
    GateState :=
  runs.foldl (fun acc run => (checkAuth P run.1 run.2 acc).1) s

end ProtectedRoute

/-! ## App (App.js) -/

/-- The two state cells of `App`: `user` (`null` or the parsed profile) and
`showChatbot`. -/
structure AppState where
  user : JValue
  showChatbot : Bool

namespace App

/-- The function `checkUserStatus` of `App`. -/
def checkUserStatus (P : Platform) (ls : Storage) (_a : AppState) : AppState :=
  let token := ls "token"
  let userJson := ls "user"
  if !(falsyItem token) && !(falsyItem userJson) && !(userJson == some "undefined") then
    match P.parse (userJson.getD "") with
    | none => { user := JValue.null, showChatbot := false }
    | some userData =>
      match getProp P userData "role" with
      | Except.error _ => { user := JValue.null, showChatbot := false }
      | Except.ok role => { user := userData, showChatbot := role.strictEqStr "student" }
  else
    { user := JValue.null, showChatbot := false }

/-- The listener `handleStorageChange` on a `storage` event with key `key`. -/
def handleStorageChange (P : Platform) (key : Option String) (ls : Storage)
    (a : AppState) : AppState :=
  if key == some "token" || key == some "user" then checkUserStatus P ls a
  else a

/-- The listener `handleLoginEvent`: it only calls
`setTimeout(checkUserStatus, 100)`. `timers` are the delays of the pending
timers of `App`; nothing is read and no state is set until the timer fires. -/
def handleLoginEvent (timers : List Nat) : List Nat :=
  timers ++ [100]

end App

/-- A session-changed signal: a `storage` event with its key, a `userLogin`
event, a `userLogout` event. -/
inductive Signal where
  | storage (key : Option String) : Signal
  | userLogin : Signal
  | userLogout : Signal

/-- One browser context: the storage, the state of `App`, the delays of the
pending `setTimeout(checkUserStatus, ...)` timers of `App`, and one mounted
`ProtectedRoute` with its `requiredRole` prop. -/
structure Client where
  storage : Storage
  app : AppState
  timers : List Nat
  requiredRole : Option String
  gate : GateState

namespace Client

/-- A context that has just mounted `App` and the `ProtectedRoute`. -/
def start (P : Platform) (requiredRole : Option String) (ls : Storage) : Client :=
  { storage := ls
    app := App.checkUserStatus P ls { user := JValue.null, showChatbot := false }
    timers := []
    requiredRole := requiredRole
    gate := ProtectedRoute.mount P requiredRole ls }

/-- The storage is changed (by this or by another context) to `ls`. -/
def storageChanged (ls : Storage) (c : Client) : Client :=
  { c with storage := ls }

/-- Delivery of a signal to the listeners registered by `App`. A `storage`
event runs `handleStorageChange`, `App` re-renders, and the effect of the
mounted `ProtectedRoute` sees the same `requiredRole` as at the previous
render. A `userLogin` or `userLogout` event runs `handleLoginEvent`, which arms
a timer and sets no state. -/
def deliver (P : Platform) (sig : Signal) (c : Client) : Client :=
  match sig with
  | Signal.storage key =>
    { c with
      app := App.handleStorageChange P key c.storage c.app
      gate := ProtectedRoute.effect P (some c.requiredRole) c.requiredRole c.storage c.gate }
  | Signal.userLogin => { c with timers := App.handleLoginEvent c.timers }
  | Signal.userLogout => { c with timers := App.handleLoginEvent c.timers }

/-- The first pending timer of `App` fires: `checkUserStatus` runs on the
storage of that moment, `App` re-renders, and the effect of the mounted
`ProtectedRoute` sees the same `requiredRole` as at the previous render.
Nothing happens when no timer is pending. -/
def timerFires (P : Platform) (c : Client) : Client :=
  match c.timers with
  | [] => c
  | _ :: later =>
    { c with
      timers := later
      app := App.checkUserStatus P c.storage c.app
      gate := ProtectedRoute.effect P (some c.requiredRole) c.requiredRole c.storage c.gate }

end Client

/-- What can happen to a context with a mounted gate whose `requiredRole` stays
fixed: the storage is changed, a signal is delivered, or a pending timer of
`App` fires. -/
inductive ClientEvent where
  | storageChanged (ls : Storage) : ClientEvent
  | signal (sig : Signal) : ClientEvent
  | timerFires : ClientEvent

namespace Client

/-- One event. -/
def step (P : Platform) (c : Client) : ClientEvent → Client
  | ClientEvent.storageChanged ls => c.storageChanged ls
  | ClientEvent.signal sig => c.deliver P sig
  | ClientEvent.timerFires => c.timerFires P

/-- A sequence of events, in order. -/
def run (P : Platform) (events : List ClientEvent) (c : Client) : Client :=
  events.foldl (step P) c

end Client

/-! ## Login and Signup (pages/auth) -/

/-- A request made through `axios.post`. -/
structure Request where
  url : String
  body : List (String × String)
  headers : List (String × String)
  timeout : Option Nat
  deriving DecidableEq, Repr

/-- What surrounds a page: the configured `REACT_APP_API_BASE_URL` (`none` when
unset), the answer to a request (the `data` of a response with a success status,
or the error `axios` rejects with), and the storage medium. -/
structure Env where
  apiBase : Option String
  server : Request → Except ErrorObj JValue
  accepts : String → String → Bool

/-- The text a template literal gives for an environment variable. -/
def envText : Option String → String
  | some s => s
  | none => "undefined"

/-- The state of a Login or Signup page (`error`, `isLoading`), the storage, and
what the page has done so far: requests sent, events dispatched on `window`,
timers set (delay and the `user` the callback closes over), calls of
`navigate`. -/
structure Page where
  error : JValue
  isLoading : Bool
  storage : Storage
  requests : List Request
  events : List (String × JValue)
  timers : List (Nat × JValue)
  navigations : List String

namespace Page

/-- A freshly mounted page over the storage `ls`. -/
def fresh (ls : Storage) : Page :=
  { error := JValue.str "", isLoading := false, storage := ls,
    requests := [], events := [], timers := [], navigations := [] }

/-- The setter `setError`. -/
def setError (v : JValue) (pg : Page) : Page :=
  { pg with error := v }

/-- The setter `setIsLoading`. -/
def setIsLoading (b : Bool) (pg : Page) : Page :=
  { pg with isLoading := b }

/-- A call `navigate(path)`. -/
def navigate (path : String) (pg : Page) : Page :=
  { pg with navigations := pg.navigations ++ [path] }

end Page

/-- The steps shared by both pages from the answer `data` on: destructuring
`const { token, user } = response.data`, the check of `token` and `user`, the
two `setItem` calls, `dispatchEvent` and `setTimeout(..., 100)`. -/
def storeSession (P : Platform) (env : Env) (data : JValue) (pg : Page) :
    Page × Except ErrorObj Unit :=
  match getProp P data "token" with
  | Except.error e => (pg, Except.error e)
  | Except.ok token =>
    match getProp P data "user" with
    | Except.error e => (pg, Except.error e)
    | Except.ok user =>
      if !token.truthy || !user.truthy then
        (pg, Except.error (newError "Invalid login response. Missing token or user."))
      else
        match setItem P env.accepts pg.storage "token" (P.toStr token) with
        | Except.error e => (pg, Except.error e)
        | Except.ok ls1 =>
          match setItem P env.accepts ls1 "user" (P.stringify user) with
          | Except.error e => ({ pg with storage := ls1 }, Except.error e)
          | Except.ok ls2 =>
            ({ pg with
               storage := ls2
               events := pg.events ++ [("userLogin", user)]
               timers := pg.timers ++ [(100, user)] }, Except.ok ())

/-! ### Login.js -/

/-- The state `formData` of the Login page. -/
structure LoginForm where
  username : String
  password : String

namespace Login

/-- The request of `axios.post` in `handleSubmit`: the URL is the template
literal over `REACT_APP_API_BASE_URL`, the body is `formData`. -/
def request (env : Env) (form : LoginForm) : Request :=
  { url := envText env.apiBase ++ "/auth/login"
    body := [("username", form.username), ("password", form.password)]
    headers := [("Content-Type", "application/json")]
    timeout := none }

/-- The `try` block of `handleSubmit`. -/
def tryBlock (P : Platform) (env : Env) (form : LoginForm) (pg : Page) :
    Page × Except ErrorObj Unit :=
  let pg1 := pg.setIsLoading true
  let req := request env form
  let pg2 := { pg1 with requests := pg1.requests ++ [req] }
  match env.server req with
  | Except.error err => (pg2, Except.error err)
  | Except.ok data => storeSession P env data pg2

/-- The `catch` block of `handleSubmit`. -/
def catchBlock (err : ErrorObj) (pg : Page) : Page :=
  let responseMessage :=
    match err.response with
    | none => JValue.undefined
    | some (_, data) => getPropOpt data "message"
  let errorMessage :=
    (responseMessage.orElse (JValue.str err.message)).orElse
      (JValue.str "Login failed. Please try again.")
  pg.setError errorMessage

/-- The function `handleSubmit` of the Login page, up to the completion of the
promise it returns (`e.preventDefault()` touches nothing modelled here). -/
def handleSubmit (P : Platform) (env : Env) (form : LoginForm) (pg : Page) : Page :=
  let pg0 := pg.setError (JValue.str "")
  if form.username == "" || form.password == "" then
    pg0.setError (JValue.str "Please enter both username and password")
  else
    let r := tryBlock P env form pg0
    let caught :=
      match r.2 with
      | Except.ok _ => r.1
      | Except.error err => catchBlock err r.1
    caught.setIsLoading false

/-- The callback given to `setTimeout`, closed over `user`. -/
def timerCallback (user : JValue) (pg : Page) : Page :=
  let role := getPropOpt user "role"
  if role.strictEqStr "instructor" then pg.navigate "/instructor/dashboard"
  else if role.strictEqStr "student" then pg.navigate "/student/dashboard"
  else pg.setError (JValue.str "Unknown user role. Please contact support.")

/-- The timers set by the page fire, in the order they were set. -/
def runTimers (pg : Page) : Page :=
  pg.timers.foldl (fun acc t => timerCallback t.2 acc) { pg with timers := [] }

/-- A submission and then the expiry of the timers it set. -/
def submit (P : Platform) (env : Env) (form : LoginForm) (pg : Page) : Page :=
  runTimers (handleSubmit P env form pg)

end Login

/-! ### Signup.js -/

/-- The state `formData` of the Signup page. -/
structure SignupForm where
  username : String
  email : String
  password : String
  confirmPassword : String
  firstName : String
  lastName : String
  bio : String
  role : String

namespace Signup

/-- The value `useState` gives `formData` at mount. -/
def emptyForm : SignupForm :=
  { username := "", email := "", password := "", confirmPassword := "",
    firstName := "", lastName := "", bio := "", role := "student" }

/-- The request of `axios.post` in `handleSubmit`: the URL is `apiUrl`, the
body is `formData`. -/
def request (env : Env) (form : SignupForm) : Request :=
  { url := envText env.apiBase ++ "/auth/login"
    body := [("username", form.username), ("email", form.email),
             ("password", form.password), ("confirmPassword", form.confirmPassword),
             ("firstName", form.firstName), ("lastName", form.lastName),
             ("bio", form.bio), ("role", form.role)]
    headers := [("Content-Type", "application/json")]
    timeout := some 10000 }

/-- The `try` block of `handleSubmit`. -/
def tryBlock (P : Platform) (env : Env) (form : SignupForm) (pg : Page) :
    Page × Except ErrorObj Unit :=
  let pg1 := pg.setIsLoading true
  let req := request env form
  let pg2 := { pg1 with requests := pg1.requests ++ [req] }
  match env.server req with
  | Except.error err => (pg2, Except.error err)
  | Except.ok data => storeSession P env data pg2

/-- The `switch (status)` of the `catch` block. -/
def statusMessage (status : Nat) (data : JValue) : JValue :=
  if status = 400 then (getPropOpt data "message").orElse (JValue.str "Invalid request data.")
  else if status = 401 then JValue.str "Invalid username or password."
  else if status = 404 then JValue.str "Login endpoint not found. Please contact support."
  else if status = 500 then JValue.str "Server error. Please try again later."
  else (getPropOpt data "message").orElse
    (JValue.str ("Server error (" ++ toString status ++ ")"))

/-- The `catch` block of `handleSubmit`. -/
def catchBlock (err : ErrorObj) (pg : Page) : Page :=
  let errorMessage :=
    if err.code == some "ECONNABORTED" then
      JValue.str "Request timeout. Please check your connection."
    else if err.code == some "ERR_NETWORK" then
      JValue.str "Network error. Please check if the server is running."
    else
      match err.response with
      | some (status, data) => statusMessage status data
      | none =>
        if err.request then
          JValue.str "No response from server. Please check if the server is running."
        else JValue.str "Login failed. Please try again."
  pg.setError errorMessage

/-- The function `handleSubmit` of the Signup page, up to the completion of the
promise it returns (`e.preventDefault()` touches nothing modelled here). -/
def handleSubmit (P : Platform) (env : Env) (form : SignupForm) (pg : Page) : Page :=
  let pg0 := pg.setError (JValue.str "")
  if form.username == "" || form.password == "" then
    pg0.setError (JValue.str "Please enter both username and password")
  else
    let r := tryBlock P env form pg0
    let caught :=
      match r.2 with
      | Except.ok _ => r.1
      | Except.error err => catchBlock err r.1
    caught.setIsLoading false

/-- The callback given to `setTimeout`, closed over `user`; a throw of
`user.role` is not caught by anything and leaves the page as it is. -/
def timerCallback (P : Platform) (user : JValue) (pg : Page) : Page :=
  match getProp P user "role" with
  | Except.error _ => pg
  | Except.ok role =>
    if role.strictEqStr "instructor" then pg.navigate "/instructor/dashboard"
    else pg.navigate "/student/dashboard"

/-- The timers set by the page fire, in the order they were set. -/
def runTimers (P : Platform) (pg : Page) : Page :=
  pg.timers.foldl (fun acc t => timerCallback P t.2 acc) { pg with timers := [] }

/-- A submission and then the expiry of the timers it set. -/
def submit (P : Platform) (env : Env) (form : SignupForm) (pg : Page) : Page :=
  runTimers P (handleSubmit P env form pg)

end Signup

/-! ## The connection to the store and the health check (Backend/server.js) -/

/-- The atoms of the regular expression of `connectToAtlas`: a literal
character, and `.*` (greedy, `.` matching every character but a line
terminator). -/
inductive Atom where
  | lit (c : Char) : Atom
  | anyStar : Atom

/-- The line terminators of ECMAScript, which `.` does not match: LF, CR, LS,
PS. -/
def isLineTerminator (c : Char) : Bool :=
  c == Char.ofNat 10 || c == Char.ofNat 13 || c == Char.ofNat 8232 || c == Char.ofNat 8233

/-- The atom `.*` followed by the continuation `next`: as many characters as
possible are taken, and given back one at a time until `next` matches. -/
def matchStar (next : List Char → Option (List Char)) : List Char → Option (List Char)
  | [] => next []
  | c :: cs =>
    if isLineTerminator c then next (c :: cs)
    else
      match matchStar next cs with
      | some rest => some rest
      | none => next (c :: cs)

/-- A backtracking match of a sequence of atoms at the start of `text`: what
follows the match, or `none` when there is no match here. -/
def matchHere : List Atom → List Char → Option (List Char)
  | [], text => some text
  | Atom.lit c :: atoms, text =>
    match text with
    | [] => none
    | d :: rest => if d = c then matchHere atoms rest else none
  | Atom.anyStar :: atoms, text => matchStar (matchHere atoms) text

/-- The method `String.prototype.replace` with a regular expression without the
`g` flag and a replacement without `$`: the leftmost match is replaced, and a
text without a match is returned as it is. -/
def replaceFirst (atoms : List Atom) (replacement : List Char) :
    List Char → List Char
  | [] =>
    match matchHere atoms [] with
    | some rest => replacement ++ rest
    | none => []
  | c :: cs =>
    match matchHere atoms (c :: cs) with
    | some rest => replacement ++ rest
    | none => c :: replaceFirst atoms replacement cs

/-- The regular expression `/\/\/.*:.*@/`. -/
def credentialPattern : List Atom :=
  [Atom.lit '/', Atom.lit '/', Atom.anyStar, Atom.lit ':', Atom.anyStar, Atom.lit '@']

/-- The expression `uri.replace(/\/\/.*:.*@/, '//***:***@')`. -/
def redact (uri : String) : String :=
  String.mk (replaceFirst credentialPattern "//***:***@".toList uri.toList)

/-- One call of `console.log` or `console.error`: the text, and the second
argument when there is one (`some none` when it is `undefined`). -/
structure LogLine where
  isError : Bool
  text : String
  argument : Option (Option String) := none
  deriving DecidableEq, Repr

/-- The part of the process state the connection code acts on: how many times
`connectToAtlas` has been called, how many `mongoose.connect` promises are
awaited, the delays of the pending `setTimeout(connectToAtlas, ...)` timers,
and the console. -/
structure ConnState where
  attempts : Nat
  inFlight : Nat
  timers : List Nat
  log : List LogLine
  deriving DecidableEq, Repr

/-- The function `connectToAtlas` up to its `await`: it logs and starts one
`mongoose.connect(process.env.MONGODB_URI, ...)`. -/
def connectToAtlas (s : ConnState) : ConnState :=
  { s with
    attempts := s.attempts + 1
    inFlight := s.inFlight + 1
    log := s.log ++ [{ isError := false, text := "🔄 Connecting to MongoDB Atlas..." }] }

namespace connectToAtlas

/-- The rest of the `try` block, when the awaited promise is fulfilled. -/
def fulfilled (s : ConnState) : ConnState :=
  { s with
    inFlight := s.inFlight - 1
    log := s.log ++ [{ isError := false, text := "✅ Successfully connected to MongoDB Atlas" }] }

/-- The lines of the `catch` block: the message of the error, the connection
string with `redact` applied (`undefined` when `MONGODB_URI` is unset), the
notice of the retry. -/
def failureLines (uri : Option String) (message : String) : List LogLine :=
  [{ isError := true, text := "❌ MongoDB Atlas connection failed:",
     argument := some (some message) },
   { isError := true, text := "🔍 Connection string being used:",
     argument := some (uri.map redact) },
   { isError := false, text := "🔄 Retrying Atlas connection in 5 seconds..." }]

/-- The `catch` block, when the awaited promise is rejected with an error of
message `message`: the three lines, then `setTimeout(connectToAtlas, 5000)`. -/
def rejected (uri : Option String) (message : String) (s : ConnState) : ConnState :=
  { s with
    inFlight := s.inFlight - 1
    log := s.log ++ failureLines uri message
    timers := s.timers ++ [5000] }

end connectToAtlas

/-- What can happen to the connection code after the start of the process: the
awaited attempt fails, it succeeds, or the first pending retry timer fires. -/
inductive ConnEvent where
  | fails (message : String) : ConnEvent
  | succeeds : ConnEvent
  | timerFires : ConnEvent

namespace ConnState

/-- The state once the module has been loaded: the call `connectToAtlas()` at
the top level has been made. -/
def boot : ConnState :=
  connectToAtlas { attempts := 0, inFlight := 0, timers := [], log := [] }

/-- One event, `none` when it cannot happen in the state (no attempt is
awaited, no timer is pending). -/
def step (uri : Option String) (s : ConnState) : ConnEvent → Option ConnState
  | ConnEvent.fails message =>
    if s.inFlight = 0 then none else some (connectToAtlas.rejected uri message s)
  | ConnEvent.succeeds =>
    if s.inFlight = 0 then none else some (connectToAtlas.fulfilled s)
  | ConnEvent.timerFires =>
    match s.timers with
    | [] => none
    | _ :: later => some (connectToAtlas { s with timers := later })

/-- A sequence of events, in order. -/
def run (uri : Option String) (s : ConnState) : List ConnEvent → Option ConnState
  | [] => some s
  | ev :: later =>
    match step uri s ev with
    | none => none
    | some t => run uri t later

end ConnState

/-- The events of consecutive failed attempts with the given error messages,
each followed by the expiry of the retry timer it set. -/
def failedRounds (messages : List String) : List ConnEvent :=
  messages.flatMap (fun message => [ConnEvent.fails message, ConnEvent.timerFires])

/-- The body of the answer of `/health`. -/
structure HealthBody where
  status : String
  database : String
  atlas_connection : String
  timestamp : String
  deriving DecidableEq, Repr

/-- The object `statusMap` of the `/health` handler, read at `dbStatus`. -/
def statusMap (dbStatus : Nat) : Option String :=
  if dbStatus = 0 then some "disconnected"
  else if dbStatus = 1 then some "connected"
  else if dbStatus = 2 then some "connecting"
  else if dbStatus = 3 then some "disconnecting"
  else none

/-- The process as the `/health` handler sees it: the `readyState` of
`mongoose.connection` and the state of the connection code. -/
structure Server where
  readyState : Nat
  conn : ConnState
  deriving DecidableEq, Repr

/-- The handler of `GET /health`: the process after the call, the status code
and the body. `now` is `new Date().toISOString()`. -/
def healthHandler (now : String) (sv : Server) : Server × Nat × HealthBody :=
  let dbStatus := sv.readyState
  (sv, 200,
    { status := "Server is running"
      database :=
        match statusMap dbStatus with
        | some name => if name = "" then "unknown" else name
        | none => "unknown"
      atlas_connection := if dbStatus = 1 then "active" else "inactive"
      timestamp := now })

/-- The connection descriptor `<scheme>://<user>:<password>@<rest>`. -/
def descriptor (scheme user password rest : String) : String :=
  scheme ++ "://" ++ user ++ ":" ++ password ++ "@" ++ rest

/-- The characters of `text` up to its first line terminator. -/
def firstLine (text : List Char) : List Char :=
  text.takeWhile (fun c => !isLineTerminator c)

/-- The part of `rest` that the redaction keeps: `rest` without what comes
before, and with, the last `@` of its first line; all of `rest` when its first
line has no `@`. -/
def keptTail : List Char → List Char
  | [] => []
  | c :: cs =>
    if isLineTerminator c then c :: cs
    else if '@' ∈ firstLine cs then keptTail cs
    else if c = '@' then cs
    else c :: cs

/-! ## Predicates used to state the properties -/

/-- A field of a response body that is missing (`undefined`), `null` or
empty. -/
def JValue.lacking (v : JValue) : Prop :=
  v = JValue.undefined ∨ v = JValue.null ∨ v = JValue.str ""

/-- The page `after` has failed closed with respect to `before`: the storage is
unchanged, no event has been dispatched, no timer set, no navigation made, and a
non-empty error message is shown. -/
def Page.failedClosed (before after : Page) : Prop :=
  after.storage = before.storage ∧ after.events = before.events ∧
    after.timers = before.timers ∧ after.navigations = before.navigations ∧
    ∃ m : String, after.error = JValue.str m ∧ m ≠ ""

/-- Both fields of the form that `handleSubmit` tests are filled. -/
def LoginForm.filled (form : LoginForm) : Prop :=
  form.username ≠ "" ∧ form.password ≠ ""

/-- Both fields of the form that `handleSubmit` tests are filled. -/
def SignupForm.filled (form : SignupForm) : Prop :=
  form.username ≠ "" ∧ form.password ≠ ""

/-! ## The session profile and a concrete host, for closed examples -/

/-- The profile of a session: `id`, `username`, `role`, `displayName`,
`email`. -/
structure Profile where
  id : String
  username : String
  role : String
  displayName : String
  email : String

/-- The profile as the JavaScript object the server sends. -/
def Profile.toJValue (p : Profile) : JValue :=
  JValue.obj [("id", JValue.str p.id), ("username", JValue.str p.username),
    ("role", JValue.str p.role), ("displayName", JValue.str p.displayName),
    ("email", JValue.str p.email)]

/-- The success body `{ token, user }`. -/
def sessionBody (token : JValue) (user : JValue) : JValue :=
  JValue.obj [("token", token), ("user", user)]

/-- A string between double quotes (no character of the examples needs an
escape). -/
def quoted (text : String) : String :=
  "\"" ++ text ++ "\""

/-- The text of one field whose value is a string. -/
def fieldText : String × JValue → String
  | (key, JValue.str value) => quoted key ++ ":" ++ quoted value
  | (key, _) => quoted key ++ ":null"

/-- A fragment of `JSON.stringify`: `null`, strings, and objects whose fields
are strings, none with a character to escape. The closed examples stay inside
this fragment; outside it the text is a placeholder. -/
def demoStringify : JValue → String
  | JValue.obj fields => "\x7b" ++ ",".intercalate (fields.map fieldText) ++ "\x7d"
  | JValue.str text => quoted text
  | _ => "null"

/-- The text of the JSON object with the one field `role`. -/
def roleJson (role : String) : String :=
  demoStringify (JValue.obj [("role", JValue.str role)])

/-- A profile. -/
def alice : Profile :=
  { id := "a1", username := "alice", role := "instructor",
    displayName := "Alice", email := "alice@example.org" }

/-- A fragment of `JSON.parse`: the text `null`, the one-field objects
`roleJson "student"`, `roleJson "instructor"`, `roleJson "admin"` and the text
of the profile `alice` parse to their values; every other text is rejected. -/
def demoParse (text : String) : Option JValue :=
  if text = "null" then some JValue.null
  else if text = roleJson "student" then some (JValue.obj [("role", JValue.str "student")])
  else if text = roleJson "instructor" then
    some (JValue.obj [("role", JValue.str "instructor")])
  else if text = roleJson "admin" then some (JValue.obj [("role", JValue.str "admin")])
  else if text = demoStringify alice.toJValue then some alice.toJValue
  else none

/-- A fragment of the string conversion: strings are returned, every other
value is written as by `demoStringify`. -/
def demoToStr : JValue → String
  | JValue.str s => s
  | v => demoStringify v

/-- A host with the fragments above. -/
def demoPlatform : Platform :=
  { parse := demoParse
    stringify := demoStringify
    toStr := demoToStr
    typeErrorMessage := "Cannot read properties of null"
    quotaErrorMessage := "The quota has been exceeded."
    parse_empty := rfl
    parse_undefined := rfl
    toStr_str := fun _ => rfl }

/-- A stored session: `token` and `user` entries. -/
def sessionStorage (token userJson : String) : Storage :=
  (Storage.empty.put "token" token).put "user" userJson

/-- A server that answers every request with the success body `data`, over a
storage medium that accepts every write. -/
def answering (data : JValue) : Env :=
  { apiBase := some "http://localhost:5000/api"
    server := fun _ => Except.ok data
    accepts := fun _ _ => true }

/-- A server that answers every request with the success body `data`, over a
storage medium that takes a write of `token` and rejects a write of `user`. -/
def answeringOverFullStorage (data : JValue) : Env :=
  { apiBase := some "http://localhost:5000/api"
    server := fun _ => Except.ok data
    accepts := fun key _ => key == "token" }

/-- A context in which a student is logged in and the student gate is
mounted. -/
def studentClient : Client :=
  Client.start demoPlatform (some "student") (sessionStorage "tok" (roleJson "student"))

/-- A filled Login form. -/
def aliceLogin : LoginForm :=
  { username := "alice", password := "secret1" }

/-- A filled Signup form whose two passwords differ. -/
def mismatchedSignup : SignupForm :=
  { username := "bob", email := "bob@example.org", password := "secret1",
    confirmPassword := "secret2", firstName := "Bob", lastName := "Ray", bio := "",
    role := "student" }

/-- A filled Signup form whose two passwords agree. -/
def bobSignup : SignupForm :=
  { mismatchedSignup with confirmPassword := "secret1" }

/-- A success body whose user has the role `student`. -/
def studentBody : JValue :=
  sessionBody (JValue.str "tok") (JValue.obj [("role", JValue.str "student")])

/-- A success body whose user has the role `admin`. -/
def adminBody : JValue :=
  sessionBody (JValue.str "tok") (JValue.obj [("role", JValue.str "admin")])

/-! ## Theorems: ProtectedRoute -/

namespace ProtectedRoute

/-- A user entry that `JSON.parse` accepts is neither empty nor the text
`undefined`. -/
theorem parsed_entry_present (P : Platform) (userJson : String) (v : JValue)
    (hparse : P.parse userJson = some v) : userJson ≠ "" ∧ userJson ≠ "undefined" := by
  refine ⟨?_, ?_⟩
  · intro h
    rw [h, P.parse_empty] at hparse
    exact Option.noConfusion hparse
  · intro h
    rw [h, P.parse_undefined] at hparse
    exact Option.noConfusion hparse

/-- When the guard of `checkAuth` finds no usable entries, the run resolves
unauthorized. -/
theorem checkAuth_of_guard (P : Platform) (requiredRole : Option String) (ls : Storage)
    (s : GateState)
    (h : (falsyItem (ls "token") || falsyItem (ls "user") || ls "user" == some "undefined")
      = true) :
    checkAuth P requiredRole ls s = ({ isAuthorized := some false, isLoading := false }, none) := by
  simp only [checkAuth, checkAuthTry, h, if_true, setIsLoading, setIsAuthorized]

/-- When both entries pass the guard of `checkAuth`, the run is decided by the
parse of the user entry and the role comparison. -/
theorem checkAuth_of_entries (P : Platform) (requiredRole : Option String) (ls : Storage)
    (s : GateState) (token userJson : String)
    (htoken : ls "token" = some token) (hne : token ≠ "")
    (huser : ls "user" = some userJson) (hu1 : userJson ≠ "") (hu2 : userJson ≠ "undefined") :
    checkAuth P requiredRole ls s =
      ({ isAuthorized :=
           some (match P.parse userJson with
             | none => false
             | some user =>
               match roleMismatch P requiredRole user with
               | Except.error _ => false
               | Except.ok b => !b),
         isLoading := false }, none) := by
  have hg : (falsyItem (ls "token") || falsyItem (ls "user") || ls "user" == some "undefined")
      = false := by
    simp [htoken, huser, falsyItem, hne, hu1, hu2]
  simp only [checkAuth, checkAuthTry, hg, Bool.false_eq_true, if_false]
  simp only [huser, Option.getD_some]
  cases hp : P.parse userJson with
  | none => simp [setIsLoading, setIsAuthorized]
  | some user =>
    cases hm : roleMismatch P requiredRole user with
    | error e => simp [hm, setIsLoading, setIsAuthorized]
    | ok b => cases b <;> simp [hm, setIsLoading, setIsAuthorized]

/-- Claim C1. For a non-empty stored token, a stored user entry that parses as
a JSON object whose `role` is the string `r2`, and a non-empty required role
`r1`, `checkAuth` resolves with `isAuthorized = true` when `r1 = r2` and with
`isAuthorized = false` when `r1 ≠ r2` (exact string equality), and
`isLoading = false`; nothing is thrown. -/
theorem checkAuth_role_decision (P : Platform) (ls : Storage) (s : GateState)
    (token userJson : String) (fields : List (String × JValue)) (r1 r2 : String)
    (htoken : ls "token" = some token) (hne : token ≠ "")
    (huser : ls "user" = some userJson)
    (hparse : P.parse userJson = some (JValue.obj fields))
    (hrole : fields.lookup "role" = some (JValue.str r2))
    (hr1 : r1 ≠ "") :
    checkAuth P (some r1) ls s
      = ({ isAuthorized := some (decide (r1 = r2)), isLoading := false }, none) := by
  have hu := parsed_entry_present P userJson _ hparse
  rw [checkAuth_of_entries P (some r1) ls s token userJson htoken hne huser hu.1 hu.2]
  simp only [hparse, roleMismatch, getProp, hrole, Option.getD_some, JValue.strictEqStr]
  have h1 : (r1 == "") = false := by simpa using hr1
  by_cases h : r1 = r2
  · subst h
    simp [h1]
  · have h2 : (r2 == r1) = false := by simpa using fun e => h e.symm
    simp [h1, h2, h]

/-- Claim C1, at a stored student session: a gate for `student` resolves
authorized, a gate for `instructor` resolves unauthorized. -/
theorem checkAuth_role_decision_witness :
    checkAuth demoPlatform (some "student") (sessionStorage "tok" (roleJson "student")) pending
        = ({ isAuthorized := some true, isLoading := false }, none) ∧
      checkAuth demoPlatform (some "instructor") (sessionStorage "tok" (roleJson "student"))
          pending
        = ({ isAuthorized := some false, isLoading := false }, none) :=
  ⟨checkAuth_role_decision demoPlatform (sessionStorage "tok" (roleJson "student")) pending
      "tok" (roleJson "student") [("role", JValue.str "student")] "student" "student"
      (by decide) (by decide) (by decide) rfl rfl
      (by decide),
   checkAuth_role_decision demoPlatform (sessionStorage "tok" (roleJson "student")) pending
      "tok" (roleJson "student") [("role", JValue.str "student")] "instructor" "student"
      (by decide) (by decide) (by decide) rfl rfl
      (by decide)⟩

/-- Claim C2. For every required role, set or unset, and every storage in which
the token is missing or empty, the user entry is missing, empty or the text
`undefined`, or the user entry is rejected by `JSON.parse`, `checkAuth`
completes without a throw and leaves `isAuthorized = false` and
`isLoading = false`. -/
theorem checkAuth_absent_session (P : Platform) (requiredRole : Option String)
    (ls : Storage) (s : GateState)
    (h : ls "token" = none ∨ ls "token" = some "" ∨ ls "user" = none ∨ ls "user" = some "" ∨
      ls "user" = some "undefined" ∨ ∃ u, ls "user" = some u ∧ P.parse u = none) :
    checkAuth P requiredRole ls s
      = ({ isAuthorized := some false, isLoading := false }, none) := by
  by_cases hg : (falsyItem (ls "token") || falsyItem (ls "user")
      || ls "user" == some "undefined") = true
  · exact checkAuth_of_guard P requiredRole ls s hg
  · rcases h with h | h | h | h | h | ⟨u, hu, hp⟩
    · exact absurd (by simp [h, falsyItem]) hg
    · exact absurd (by simp [h, falsyItem]) hg
    · exact absurd (by simp [h, falsyItem]) hg
    · exact absurd (by simp [h, falsyItem]) hg
    · exact absurd (by simp [h, falsyItem]) hg
    · cases ht : ls "token" with
      | none => exact absurd (by simp [ht, falsyItem]) hg
      | some token =>
        have hne : token ≠ "" := fun e => hg (by simp [ht, e, falsyItem])
        have hu1 : u ≠ "" := fun e => hg (by simp [hu, e, falsyItem])
        have hu2 : u ≠ "undefined" := fun e => hg (by simp [hu, e])
        rw [checkAuth_of_entries P requiredRole ls s token u ht hne hu hu1 hu2, hp]

/-- Claim C2, at four storages: no entries, a token without a user entry, the
user entry `undefined`, and a user entry that is not JSON. -/
theorem checkAuth_absent_session_witness :
    checkAuth demoPlatform (some "student") Storage.empty pending
        = ({ isAuthorized := some false, isLoading := false }, none) ∧
      checkAuth demoPlatform none (Storage.empty.put "token" "tok") pending
        = ({ isAuthorized := some false, isLoading := false }, none) ∧
      checkAuth demoPlatform none (sessionStorage "tok" "undefined") pending
        = ({ isAuthorized := some false, isLoading := false }, none) ∧
      checkAuth demoPlatform none (sessionStorage "tok" "not json") pending
        = ({ isAuthorized := some false, isLoading := false }, none) :=
  ⟨checkAuth_absent_session demoPlatform (some "student") Storage.empty pending
      (Or.inl rfl),
   checkAuth_absent_session demoPlatform none (Storage.empty.put "token" "tok") pending
      (Or.inr (Or.inr (Or.inl (by decide)))),
   checkAuth_absent_session demoPlatform none (sessionStorage "tok" "undefined") pending
      (Or.inr (Or.inr (Or.inr (Or.inr (Or.inl (by decide)))))),
   checkAuth_absent_session demoPlatform none (sessionStorage "tok" "not json") pending
      (Or.inr (Or.inr (Or.inr (Or.inr (Or.inr
        ⟨"not json", by decide, rfl⟩)))))⟩

/-- The result of `checkAuth` does not depend on the state it starts from. -/
theorem checkAuth_state_independent (P : Platform) (requiredRole : Option String)
    (ls : Storage) (s t : GateState) :
    checkAuth P requiredRole ls s = checkAuth P requiredRole ls t := by
  by_cases hg : (falsyItem (ls "token") || falsyItem (ls "user")
      || ls "user" == some "undefined") = true
  · rw [checkAuth_of_guard P requiredRole ls s hg, checkAuth_of_guard P requiredRole ls t hg]
  · cases ht : ls "token" with
    | none => exact absurd (by simp [ht, falsyItem]) hg
    | some token =>
      cases hu : ls "user" with
      | none => exact absurd (by simp [hu, falsyItem]) hg
      | some u =>
        have hne : token ≠ "" := fun e => hg (by simp [ht, e, falsyItem])
        have hu1 : u ≠ "" := fun e => hg (by simp [hu, e, falsyItem])
        have hu2 : u ≠ "undefined" := fun e => hg (by simp [hu, e])
        rw [checkAuth_of_entries P requiredRole ls s token u ht hne hu hu1 hu2,
          checkAuth_of_entries P requiredRole ls t token u ht hne hu hu1 hu2]

/-- Every run of `checkAuth` ends with `isLoading = false`, a decided
`isAuthorized`, and no throw. -/
theorem checkAuth_resolves (P : Platform) (requiredRole : Option String)
    (ls : Storage) (s : GateState) :
    ∃ b : Bool, checkAuth P requiredRole ls s
      = ({ isAuthorized := some b, isLoading := false }, none) := by
  by_cases hg : (falsyItem (ls "token") || falsyItem (ls "user")
      || ls "user" == some "undefined") = true
  · exact ⟨false, checkAuth_of_guard P requiredRole ls s hg⟩
  · cases ht : ls "token" with
    | none => exact absurd (by simp [ht, falsyItem]) hg
    | some token =>
      cases hu : ls "user" with
      | none => exact absurd (by simp [hu, falsyItem]) hg
      | some u =>
        have hne : token ≠ "" := fun e => hg (by simp [ht, e, falsyItem])
        have hu1 : u ≠ "" := fun e => hg (by simp [hu, e, falsyItem])
        have hu2 : u ≠ "undefined" := fun e => hg (by simp [hu, e])
        exact ⟨_, checkAuth_of_entries P requiredRole ls s token u ht hne hu hu1 hu2⟩

/-- Over a stored student session the gate for `student` resolves authorized,
from every state. -/
theorem student_gate_authorized (s : GateState) :
    checkAuth demoPlatform (some "student") (sessionStorage "tok" (roleJson "student")) s
      = ({ isAuthorized := some true, isLoading := false }, none) := by
  rw [checkAuth_of_entries demoPlatform (some "student") _ s "tok" (roleJson "student")
    (by decide) (by decide) (by decide) (by decide) (by decide)]
  rfl

/-- Over an empty storage every gate resolves unauthorized, from every state. -/
theorem empty_storage_unauthorized (P : Platform) (requiredRole : Option String)
    (s : GateState) :
    checkAuth P requiredRole Storage.empty s
      = ({ isAuthorized := some false, isLoading := false }, none) :=
  checkAuth_of_guard P requiredRole Storage.empty s rfl

/-- The children are rendered only from a state with `isLoading = false` and
`isAuthorized = true`. -/
theorem render_children_iff (s : GateState) :
    render s = View.children ↔ s.isLoading = false ∧ s.isAuthorized = some true := by
  rcases s with ⟨a, l⟩
  cases l <;> rcases a with _ | b
  all_goals first | cases b <;> simp [render] | simp [render]

/-- Claim C3. In every state of a `ProtectedRoute` the children are rendered
only if `isLoading = false` and `isAuthorized = true`; the state at mount and
every state with `isLoading = true` render the spinner; every state with
`isLoading = false` and `isAuthorized` other than `true` renders the redirect to
`/login`; and in every state reached from the state at mount by runs of
`checkAuth`, rendering the children implies that there was a last run and that
it resolved authorized. -/
theorem render_children_only_when_authorized :
    (∀ s : GateState, render s = View.children →
        s.isLoading = false ∧ s.isAuthorized = some true) ∧
      render pending = View.spinner ∧
      (∀ s : GateState, s.isLoading = true → render s = View.spinner) ∧
      (∀ s : GateState, s.isLoading = false → s.isAuthorized ≠ some true →
        render s = View.navigate "/login") ∧
      (∀ (P : Platform) (runs : List (Option String × Storage)),
        render (runChecks P runs pending) = View.children →
        ∃ earlier last, runs = earlier ++ [last] ∧
          ∀ s : GateState, checkAuth P last.1 last.2 s
            = ({ isAuthorized := some true, isLoading := false }, none)) := by
  refine ⟨fun s h => (render_children_iff s).1 h, rfl, ?_, ?_, ?_⟩
  · intro s h
    simp [render, h]
  · intro s h1 h2
    simp [render, h1, h2]
  · intro P runs h
    rcases List.eq_nil_or_concat runs with hnil | ⟨earlier, last, hcat⟩
    · subst hnil
      have hp : render (runChecks P [] pending) = View.spinner := rfl
      rw [hp] at h
      exact View.noConfusion h
    · rw [List.concat_eq_append] at hcat
      refine ⟨earlier, last, hcat, fun s => ?_⟩
      subst hcat
      have hauth := ((render_children_iff _).1 h).2
      simp only [runChecks, List.foldl_append, List.foldl_cons, List.foldl_nil] at hauth
      obtain ⟨b, hb⟩ := checkAuth_resolves P last.1 last.2 s
      rw [checkAuth_state_independent P last.1 last.2 _ s, hb] at hauth
      rw [hb]
      simp only [Option.some.injEq] at hauth
      rw [hauth]

/-- Claim C3, at concrete states: an unauthorized state renders the redirect, a
state still loading renders the spinner, and after one run of `checkAuth` over
a stored student session the gate for `student` renders the children, the last
run being that one. -/
theorem render_children_only_when_authorized_witness :
    render { isAuthorized := some false, isLoading := false } = View.navigate "/login" ∧
      render { isAuthorized := some true, isLoading := true } = View.spinner ∧
      ({ isAuthorized := some true, isLoading := false } : GateState).isLoading = false ∧
      ∃ earlier last,
        [(some "student", sessionStorage "tok" (roleJson "student"))] = earlier ++ [last] ∧
        ∀ s : GateState, checkAuth demoPlatform last.1 last.2 s
          = ({ isAuthorized := some true, isLoading := false }, none) :=
  ⟨render_children_only_when_authorized.2.2.2.1 _ rfl (by decide),
   render_children_only_when_authorized.2.2.1 _ rfl,
   (render_children_only_when_authorized.1 { isAuthorized := some true, isLoading := false }
      (by decide)).1,
   render_children_only_when_authorized.2.2.2.2 demoPlatform
      [(some "student", sessionStorage "tok" (roleJson "student"))]
      (by
        simp only [runChecks, List.foldl_cons, List.foldl_nil, student_gate_authorized]
        decide)⟩

end ProtectedRoute

/-! ## Theorems: session signals -/

namespace Client

/-- Delivery of a signal leaves the mounted gate and the storage as they
were. -/
theorem deliver_gate (P : Platform) (sig : Signal) (c : Client) :
    (c.deliver P sig).gate = c.gate ∧ (c.deliver P sig).storage = c.storage ∧
      (c.deliver P sig).requiredRole = c.requiredRole := by
  cases sig <;> simp [deliver, ProtectedRoute.effect]

/-- The expiry of a timer of `App` leaves the mounted gate and the storage as
they were. -/
theorem timerFires_gate (P : Platform) (c : Client) :
    (c.timerFires P).gate = c.gate ∧ (c.timerFires P).storage = c.storage ∧
      (c.timerFires P).requiredRole = c.requiredRole := by
  unfold timerFires
  cases c.timers <;> simp [ProtectedRoute.effect]

/-- No event changes the mounted gate. -/
theorem step_gate (P : Platform) (c : Client) (ev : ClientEvent) :
    (c.step P ev).gate = c.gate := by
  cases ev with
  | storageChanged ls => rfl
  | signal sig => exact (deliver_gate P sig c).1
  | timerFires => exact (timerFires_gate P c).1

/-- No sequence of events changes the mounted gate. -/
theorem run_gate (P : Platform) (events : List ClientEvent) (c : Client) :
    (c.run P events).gate = c.gate := by
  induction events generalizing c with
  | nil => rfl
  | cons ev rest ih =>
    have h : c.run P (ev :: rest) = (c.step P ev).run P rest := rfl
    rw [h, ih, step_gate]

/-- Claim C4, refuted at a concrete context: a student is logged in and the
student gate is authorized; the session is removed and a signal is delivered (a
`storage` event keyed on `token`, or a `userLogout` event); the gate is still
authorized, while `checkAuth` over the current storage resolves unauthorized.
It is still authorized after the timer armed by `userLogout` has fired, when
`App` has set `showChatbot` to `false`. -/
theorem gate_stale_after_signal :
    studentClient.gate = { isAuthorized := some true, isLoading := false } ∧
      ((studentClient.storageChanged Storage.empty).deliver demoPlatform
          (Signal.storage (some "token"))).gate
        = { isAuthorized := some true, isLoading := false } ∧
      ((studentClient.storageChanged Storage.empty).deliver demoPlatform
          Signal.userLogout).gate
        = { isAuthorized := some true, isLoading := false } ∧
      ((studentClient.storageChanged Storage.empty).deliver demoPlatform
          Signal.userLogout).storage "token" = none ∧
      (ProtectedRoute.checkAuth demoPlatform (some "student")
          ((studentClient.storageChanged Storage.empty).deliver demoPlatform
            Signal.userLogout).storage ProtectedRoute.pending).1
        = { isAuthorized := some false, isLoading := false } ∧
      ((studentClient.storageChanged Storage.empty).deliver demoPlatform
          Signal.userLogout).gate
        ≠ (ProtectedRoute.checkAuth demoPlatform (some "student")
          ((studentClient.storageChanged Storage.empty).deliver demoPlatform
            Signal.userLogout).storage ProtectedRoute.pending).1 ∧
      (((studentClient.storageChanged Storage.empty).deliver demoPlatform
          Signal.userLogout).timerFires demoPlatform).gate
        = { isAuthorized := some true, isLoading := false } ∧
      (((studentClient.storageChanged Storage.empty).deliver demoPlatform
          Signal.userLogout).timerFires demoPlatform).app.showChatbot = false := by
  have hstart : studentClient.gate = { isAuthorized := some true, isLoading := false } := by
    simp [studentClient, start, ProtectedRoute.mount, ProtectedRoute.effect,
      ProtectedRoute.student_gate_authorized]
  have hnow : (ProtectedRoute.checkAuth demoPlatform (some "student")
      ((studentClient.storageChanged Storage.empty).deliver demoPlatform
        Signal.userLogout).storage ProtectedRoute.pending).1
      = { isAuthorized := some false, isLoading := false } := by
    rw [(deliver_gate _ _ _).2.1]
    exact congrArg Prod.fst
      (ProtectedRoute.empty_storage_unauthorized demoPlatform (some "student") _)
  have hout : ((studentClient.storageChanged Storage.empty).deliver demoPlatform
      Signal.userLogout).gate = { isAuthorized := some true, isLoading := false } := by
    rw [(deliver_gate _ _ _).1]
    exact hstart
  refine ⟨hstart, ?_, hout, rfl, hnow, ?_, ?_, rfl⟩
  · rw [(deliver_gate _ _ _).1]
    exact hstart
  · rw [hout, hnow]
    decide
  · rw [(timerFires_gate _ _).1]
    exact hout

/-- Claim C4, as the code has it. For a mounted `ProtectedRoute` with a fixed
`requiredRole`, no delivered signal (a `storage` event, `userLogin`,
`userLogout`), no expiry of a timer of `App` and no change of the storage
re-runs the resolution: after every sequence of such events the state of the
gate is the one `checkAuth` computed at mount from the storage of that time.
What the signals reach is `App`. A `storage` event keyed on `token` or `user`
sets the state of `App` to `checkUserStatus` of the current storage, and a
`storage` event with another key sets nothing. A `userLogin` or `userLogout`
event sets nothing and reads nothing: it arms one timer of 100 ms, and when that
timer fires the state of `App` becomes `checkUserStatus` of the storage of that
moment, also when the storage has changed since the event. -/
theorem gate_decided_at_mount (P : Platform) (requiredRole : Option String)
    (ls later : Storage) (events : List ClientEvent) (c : Client) :
    ((start P requiredRole ls).run P events).gate
        = (ProtectedRoute.checkAuth P requiredRole ls ProtectedRoute.pending).1 ∧
      (c.deliver P (Signal.storage (some "token"))).app
        = App.checkUserStatus P c.storage c.app ∧
      (c.deliver P (Signal.storage (some "user"))).app
        = App.checkUserStatus P c.storage c.app ∧
      (c.deliver P (Signal.storage (some "theme"))).app = c.app ∧
      ((c.deliver P Signal.userLogin).app = c.app ∧
        (c.deliver P Signal.userLogin).timers = c.timers ++ [100]) ∧
      ((c.deliver P Signal.userLogout).app = c.app ∧
        (c.deliver P Signal.userLogout).timers = c.timers ++ [100]) ∧
      ((((start P requiredRole ls).deliver P Signal.userLogin).storageChanged later).timerFires
          P).app
        = App.checkUserStatus P later (start P requiredRole ls).app ∧
      ((((start P requiredRole ls).deliver P Signal.userLogout).storageChanged later).timerFires
          P).app
        = App.checkUserStatus P later (start P requiredRole ls).app ∧
      ((((start P requiredRole ls).deliver P Signal.userLogout).storageChanged later).timerFires
          P).timers = [] := by
  refine ⟨?_, rfl, rfl, rfl, ⟨rfl, rfl⟩, ⟨rfl, rfl⟩, rfl, rfl, rfl⟩
  rw [run_gate]
  simp [start, ProtectedRoute.mount, ProtectedRoute.effect]

end Client

/-! ## Theorems: Login and Signup -/

/-- A property read either gives the field as `?.` does, or throws the
`TypeError` of the host. -/
theorem getProp_cases (P : Platform) (v : JValue) (key : String) :
    getProp P v key = Except.ok (getPropOpt v key) ∨
      (getProp P v key = Except.error { message := P.typeErrorMessage } ∧
        getPropOpt v key = JValue.undefined) := by
  cases v <;> simp [getProp, getPropOpt]

/-- A lacking field is falsy. -/
theorem JValue.lacking_falsy (v : JValue) (h : v.lacking) : v.truthy = false := by
  rcases h with h | h | h <;> subst h <;> simp [JValue.truthy]

/-- A body without a truthy `token` or without a truthy `user` makes
`storeSession` throw a plain error (no `code`, no `response`, no `request`)
before anything is written. -/
theorem storeSession_rejects (P : Platform) (env : Env) (data : JValue) (pg : Page)
    (h : (getPropOpt data "token").truthy = false ∨ (getPropOpt data "user").truthy = false) :
    ∃ msg : String, storeSession P env data pg = (pg, Except.error { message := msg }) := by
  rcases getProp_cases P data "token" with ht | ⟨ht, _⟩
  · rcases getProp_cases P data "user" with hu | ⟨hu, _⟩
    · refine ⟨"Invalid login response. Missing token or user.", ?_⟩
      have hc : (!(getPropOpt data "token").truthy || !(getPropOpt data "user").truthy)
          = true := by
        rcases h with h | h <;> simp [h]
      simp only [storeSession, ht, hu, hc, if_true, newError]
    · exact ⟨P.typeErrorMessage, by simp only [storeSession, ht, hu]⟩
  · exact ⟨P.typeErrorMessage, by simp only [storeSession, ht]⟩

/-- A body with a truthy `token` and a truthy `user`, over a medium that takes
both writes: `storeSession` writes both entries, dispatches `userLogin` and sets
the timer. -/
theorem storeSession_accepts (P : Platform) (env : Env) (data token user : JValue)
    (pg : Page)
    (ht : getProp P data "token" = Except.ok token)
    (hu : getProp P data "user" = Except.ok user)
    (htt : token.truthy = true) (hut : user.truthy = true)
    (ha1 : env.accepts "token" (P.toStr token) = true)
    (ha2 : env.accepts "user" (P.stringify user) = true) :
    storeSession P env data pg =
      ({ pg with
         storage := (pg.storage.put "token" (P.toStr token)).put "user" (P.stringify user)
         events := pg.events ++ [("userLogin", user)]
         timers := pg.timers ++ [(100, user)] }, Except.ok ()) := by
  simp [storeSession, ht, hu, htt, hut, setItem, ha1, ha2]

namespace Login

/-- The guard of `handleSubmit` lets a filled form through. -/
theorem login_guard_of_filled (form : LoginForm) (h : form.filled) :
    (form.username == "" || form.password == "") = false := by
  simp [h.1, h.2]

/-- The page after `handleSubmit` when the answer is accepted and stored. -/
theorem login_handleSubmit_stored (P : Platform) (env : Env) (form : LoginForm)
    (data token user : JValue) (pg : Page)
    (hf : form.filled)
    (hanswer : env.server (request env form) = Except.ok data)
    (ht : getProp P data "token" = Except.ok token)
    (hu : getProp P data "user" = Except.ok user)
    (htt : token.truthy = true) (hut : user.truthy = true)
    (ha1 : env.accepts "token" (P.toStr token) = true)
    (ha2 : env.accepts "user" (P.stringify user) = true) :
    handleSubmit P env form pg =
      { error := JValue.str ""
        isLoading := false
        storage := (pg.storage.put "token" (P.toStr token)).put "user" (P.stringify user)
        requests := pg.requests ++ [request env form]
        events := pg.events ++ [("userLogin", user)]
        timers := pg.timers ++ [(100, user)]
        navigations := pg.navigations } := by
  simp only [handleSubmit, login_guard_of_filled form hf, tryBlock, hanswer]
  rw [storeSession_accepts P env data token user _ ht hu htt hut ha1 ha2]
  simp [Page.setError, Page.setIsLoading]

/-- The page after `handleSubmit` when the answer lacks a truthy `token` or a
truthy `user`. -/
theorem login_handleSubmit_rejected (P : Platform) (env : Env) (form : LoginForm)
    (data : JValue) (pg : Page)
    (hf : form.filled)
    (hanswer : env.server (request env form) = Except.ok data)
    (h : (getPropOpt data "token").truthy = false ∨ (getPropOpt data "user").truthy = false) :
    ∃ m : String, m ≠ "" ∧
      handleSubmit P env form pg =
        { pg with
          error := JValue.str m
          isLoading := false
          requests := pg.requests ++ [request env form] } := by
  obtain ⟨msg, hmsg⟩ := storeSession_rejects P env data
    { (pg.setError (JValue.str "")).setIsLoading true with
      requests := ((pg.setError (JValue.str "")).setIsLoading true).requests
        ++ [request env form] } h
  by_cases hm : msg = ""
  · refine ⟨"Login failed. Please try again.", by decide, ?_⟩
    simp only [handleSubmit, login_guard_of_filled form hf, tryBlock, hanswer]
    rw [hmsg]
    simp [catchBlock, JValue.orElse, JValue.truthy, hm, Page.setError, Page.setIsLoading]
  · refine ⟨msg, hm, ?_⟩
    simp only [handleSubmit, login_guard_of_filled form hf, tryBlock, hanswer]
    rw [hmsg]
    simp [catchBlock, JValue.orElse, JValue.truthy, hm, Page.setError, Page.setIsLoading]

end Login

namespace Signup

/-- The guard of `handleSubmit` lets a form with a username and a password
through. -/
theorem signup_guard_of_filled (form : SignupForm) (h : form.filled) :
    (form.username == "" || form.password == "") = false := by
  simp [h.1, h.2]

/-- The page after `handleSubmit` when the answer is accepted and stored. -/
theorem signup_handleSubmit_stored (P : Platform) (env : Env) (form : SignupForm)
    (data token user : JValue) (pg : Page)
    (hf : form.filled)
    (hanswer : env.server (request env form) = Except.ok data)
    (ht : getProp P data "token" = Except.ok token)
    (hu : getProp P data "user" = Except.ok user)
    (htt : token.truthy = true) (hut : user.truthy = true)
    (ha1 : env.accepts "token" (P.toStr token) = true)
    (ha2 : env.accepts "user" (P.stringify user) = true) :
    handleSubmit P env form pg =
      { error := JValue.str ""
        isLoading := false
        storage := (pg.storage.put "token" (P.toStr token)).put "user" (P.stringify user)
        requests := pg.requests ++ [request env form]
        events := pg.events ++ [("userLogin", user)]
        timers := pg.timers ++ [(100, user)]
        navigations := pg.navigations } := by
  simp only [handleSubmit, signup_guard_of_filled form hf, tryBlock, hanswer]
  rw [storeSession_accepts P env data token user _ ht hu htt hut ha1 ha2]
  simp [Page.setError, Page.setIsLoading]

/-- The page after `handleSubmit` when the answer lacks a truthy `token` or a
truthy `user`. -/
theorem signup_handleSubmit_rejected (P : Platform) (env : Env) (form : SignupForm)
    (data : JValue) (pg : Page)
    (hf : form.filled)
    (hanswer : env.server (request env form) = Except.ok data)
    (h : (getPropOpt data "token").truthy = false ∨ (getPropOpt data "user").truthy = false) :
    handleSubmit P env form pg =
      { pg with
        error := JValue.str "Login failed. Please try again."
        isLoading := false
        requests := pg.requests ++ [request env form] } := by
  obtain ⟨msg, hmsg⟩ := storeSession_rejects P env data
    { (pg.setError (JValue.str "")).setIsLoading true with
      requests := ((pg.setError (JValue.str "")).setIsLoading true).requests
        ++ [request env form] } h
  simp only [handleSubmit, signup_guard_of_filled form hf, tryBlock, hanswer]
  rw [hmsg]
  simp [catchBlock, Page.setError, Page.setIsLoading]

end Signup

/-- Strict equality with a string holds exactly for that string. -/
theorem JValue.strictEqStr_iff (v : JValue) (text : String) :
    v.strictEqStr text = true ↔ v = JValue.str text := by
  cases v <;> simp [JValue.strictEqStr]

/-- The decision of the Login timer: `instructor` and `student` navigate to
their dashboard, every other role sets the unknown-role message and does not
navigate. -/
theorem Login.loginTimer_decision (user : JValue) (pg : Page) :
    (getPropOpt user "role" = JValue.str "instructor" →
        Login.timerCallback user pg = pg.navigate "/instructor/dashboard") ∧
      (getPropOpt user "role" = JValue.str "student" →
        Login.timerCallback user pg = pg.navigate "/student/dashboard") ∧
      (getPropOpt user "role" ≠ JValue.str "instructor" →
        getPropOpt user "role" ≠ JValue.str "student" →
        Login.timerCallback user pg
          = pg.setError (JValue.str "Unknown user role. Please contact support.")) := by
  refine ⟨fun h => ?_, fun h => ?_, fun h1 h2 => ?_⟩
  · simp [Login.timerCallback, h, JValue.strictEqStr]
  · simp [Login.timerCallback, h, JValue.strictEqStr]
  · have e1 : (getPropOpt user "role").strictEqStr "instructor" = false := by
      rw [← Bool.not_eq_true, JValue.strictEqStr_iff]
      exact h1
    have e2 : (getPropOpt user "role").strictEqStr "student" = false := by
      rw [← Bool.not_eq_true, JValue.strictEqStr_iff]
      exact h2
    simp [Login.timerCallback, e1, e2]

/-- The decision of the Signup timer on a truthy `user`: `instructor` navigates
to the instructor dashboard, every other role to the student dashboard. -/
theorem Signup.signupTimer_decision (P : Platform) (user : JValue) (pg : Page)
    (hut : user.truthy = true) :
    (getPropOpt user "role" = JValue.str "instructor" →
        Signup.timerCallback P user pg = pg.navigate "/instructor/dashboard") ∧
      (getPropOpt user "role" ≠ JValue.str "instructor" →
        Signup.timerCallback P user pg = pg.navigate "/student/dashboard") := by
  have hp : getProp P user "role" = Except.ok (getPropOpt user "role") := by
    rcases getProp_cases P user "role" with h | ⟨h, _⟩
    · exact h
    · cases user <;> simp [getProp, JValue.truthy] at h hut
  refine ⟨fun h => ?_, fun h => ?_⟩
  · simp [Signup.timerCallback, hp, h, JValue.strictEqStr]
  · have e1 : (getPropOpt user "role").strictEqStr "instructor" = false := by
      rw [← Bool.not_eq_true, JValue.strictEqStr_iff]
      exact h
    simp [Signup.timerCallback, hp, e1]

/-- What the Login page does with an answer that carries a truthy `token` and a
truthy `user` (medium taking both writes, no timer left from before):
`instructor` navigates to `/instructor/dashboard`, `student` to
`/student/dashboard`, and every other role makes no navigation and sets the
unknown-role message. -/
theorem Login.loginSubmit_decision (P : Platform) (env : Env) (form : LoginForm)
    (data token user : JValue) (pg : Page)
    (hf : form.filled)
    (hanswer : env.server (Login.request env form) = Except.ok data)
    (ht : getProp P data "token" = Except.ok token)
    (hu : getProp P data "user" = Except.ok user)
    (htt : token.truthy = true) (hut : user.truthy = true)
    (ha1 : env.accepts "token" (P.toStr token) = true)
    (ha2 : env.accepts "user" (P.stringify user) = true)
    (hidle : pg.timers = []) :
    (getPropOpt user "role" = JValue.str "instructor" →
        (Login.submit P env form pg).navigations = pg.navigations ++ ["/instructor/dashboard"] ∧
        (Login.submit P env form pg).error = JValue.str "") ∧
      (getPropOpt user "role" = JValue.str "student" →
        (Login.submit P env form pg).navigations = pg.navigations ++ ["/student/dashboard"] ∧
        (Login.submit P env form pg).error = JValue.str "") ∧
      (getPropOpt user "role" ≠ JValue.str "instructor" →
        getPropOpt user "role" ≠ JValue.str "student" →
        (Login.submit P env form pg).navigations = pg.navigations ∧
        (Login.submit P env form pg).error
          = JValue.str "Unknown user role. Please contact support.") := by
  have hs := Login.login_handleSubmit_stored P env form data token user pg hf hanswer ht hu htt hut
    ha1 ha2
  have hsub : Login.submit P env form pg =
      Login.timerCallback user { Login.handleSubmit P env form pg with timers := [] } := by
    simp only [Login.submit, Login.runTimers]
    rw [hs]
    simp only [hidle, List.nil_append, List.foldl_cons, List.foldl_nil]
  rw [hsub, hs]
  refine ⟨fun h => ?_, fun h => ?_, fun h1 h2 => ?_⟩
  · rw [(Login.loginTimer_decision user _).1 h]
    exact ⟨rfl, rfl⟩
  · rw [(Login.loginTimer_decision user _).2.1 h]
    exact ⟨rfl, rfl⟩
  · rw [(Login.loginTimer_decision user _).2.2 h1 h2]
    exact ⟨rfl, rfl⟩

/-- What the Signup page does with an answer that carries a truthy `token` and
a truthy `user` (medium taking both writes, no timer left from before):
`instructor` navigates to `/instructor/dashboard` and every other role to
`/student/dashboard`; no error is set. -/
theorem Signup.signupSubmit_decision (P : Platform) (env : Env) (form : SignupForm)
    (data token user : JValue) (pg : Page)
    (hf : form.filled)
    (hanswer : env.server (Signup.request env form) = Except.ok data)
    (ht : getProp P data "token" = Except.ok token)
    (hu : getProp P data "user" = Except.ok user)
    (htt : token.truthy = true) (hut : user.truthy = true)
    (ha1 : env.accepts "token" (P.toStr token) = true)
    (ha2 : env.accepts "user" (P.stringify user) = true)
    (hidle : pg.timers = []) :
    (getPropOpt user "role" = JValue.str "instructor" →
        (Signup.submit P env form pg).navigations
          = pg.navigations ++ ["/instructor/dashboard"]) ∧
      (getPropOpt user "role" ≠ JValue.str "instructor" →
        (Signup.submit P env form pg).navigations = pg.navigations ++ ["/student/dashboard"]) ∧
      (Signup.submit P env form pg).error = JValue.str "" := by
  have hs := Signup.signup_handleSubmit_stored P env form data token user pg hf hanswer ht hu htt hut
    ha1 ha2
  have hsub : Signup.submit P env form pg =
      Signup.timerCallback P user { Signup.handleSubmit P env form pg with timers := [] } := by
    simp only [Signup.submit, Signup.runTimers]
    rw [hs]
    simp only [hidle, List.nil_append, List.foldl_cons, List.foldl_nil]
  rw [hsub, hs]
  refine ⟨fun h => ?_, fun h => ?_, ?_⟩
  · rw [(Signup.signupTimer_decision P user _ hut).1 h]
    rfl
  · rw [(Signup.signupTimer_decision P user _ hut).2 h]
    rfl
  · by_cases h : getPropOpt user "role" = JValue.str "instructor"
    · rw [(Signup.signupTimer_decision P user _ hut).1 h]
      rfl
    · rw [(Signup.signupTimer_decision P user _ hut).2 h]
      rfl

/-- The only local check of the Signup page: a form without a username or
without a password is rejected with a message, and nothing else happens. -/
theorem Signup.handleSubmit_unfilled (P : Platform) (env : Env) (form : SignupForm)
    (pg : Page) (h : form.username = "" ∨ form.password = "") :
    Signup.handleSubmit P env form pg
      = { pg with error := JValue.str "Please enter both username and password" } := by
  have hg : (form.username == "" || form.password == "") = true := by
    rcases h with h | h <;> simp [h]
  simp [Signup.handleSubmit, hg, Page.setError]

/-- The steps after the answer send no request. -/
theorem storeSession_requests (P : Platform) (env : Env) (data : JValue) (pg : Page) :
    (storeSession P env data pg).1.requests = pg.requests := by
  unfold storeSession
  repeat' split
  all_goals rfl

/-- The `catch` and `finally` blocks of the Signup page send no request. -/
theorem Signup.finish_requests (r : Page × Except ErrorObj Unit) :
    (Page.setIsLoading false
      (match r.2 with
        | Except.ok _ => r.1
        | Except.error err => Signup.catchBlock err r.1)).requests = r.1.requests := by
  rcases r with ⟨page, result⟩
  cases result <;> rfl

/-- A Signup form with a username and a password, whatever its other fields,
makes `handleSubmit` send exactly one request: the whole form, to the base URL
followed by `/auth/login`. -/
theorem Signup.handleSubmit_requests (P : Platform) (env : Env) (form : SignupForm)
    (pg : Page) (hf : form.filled) :
    (Signup.handleSubmit P env form pg).requests = pg.requests ++ [Signup.request env form] ∧
      (Signup.request env form).url = envText env.apiBase ++ "/auth/login" ∧
      ("confirmPassword", form.confirmPassword) ∈ (Signup.request env form).body := by
  refine ⟨?_, rfl, by simp [Signup.request]⟩
  simp only [Signup.handleSubmit, Signup.signup_guard_of_filled form hf, Signup.tryBlock]
  cases hsrv : env.server (Signup.request env form) with
  | error err => simp [Signup.catchBlock, Page.setError, Page.setIsLoading]
  | ok data =>
    exact (Signup.finish_requests _).trans (storeSession_requests P env data _)

/-- Claim C5, the code at the failing input: the server answers a signup and a
login with a token and a user of role `admin`. The Signup page navigates to
`/student/dashboard` and shows no error; the Login page, on the same answer,
does not navigate and shows the unknown-role message. -/
theorem signup_unknown_role_goes_to_student_dashboard :
    (Signup.submit demoPlatform (answering adminBody) bobSignup
        (Page.fresh Storage.empty)).navigations = ["/student/dashboard"] ∧
      (Signup.submit demoPlatform (answering adminBody) bobSignup
        (Page.fresh Storage.empty)).error = JValue.str "" ∧
      (Login.submit demoPlatform (answering adminBody) aliceLogin
        (Page.fresh Storage.empty)).navigations = [] ∧
      (Login.submit demoPlatform (answering adminBody) aliceLogin
        (Page.fresh Storage.empty)).error
        = JValue.str "Unknown user role. Please contact support." :=
  ⟨rfl, rfl, rfl, rfl⟩

/-- Claim C6, the code at the failing inputs: a Signup form whose
`confirmPassword` differs from `password`, and the form at mount with only
`username` and `password` typed in (email, first and last name empty). In both
cases `handleSubmit` sets no error, sends one request, and stores the session
of the answer. -/
theorem signup_mismatch_is_submitted :
    (Signup.handleSubmit demoPlatform (answering studentBody) mismatchedSignup
        (Page.fresh Storage.empty)).requests
        = [Signup.request (answering studentBody) mismatchedSignup] ∧
      (Signup.handleSubmit demoPlatform (answering studentBody) mismatchedSignup
        (Page.fresh Storage.empty)).error = JValue.str "" ∧
      (Signup.handleSubmit demoPlatform (answering studentBody) mismatchedSignup
        (Page.fresh Storage.empty)).storage "token" = some "tok" ∧
      (Signup.handleSubmit demoPlatform (answering studentBody)
        { Signup.emptyForm with username := "bob", password := "secret1" }
        (Page.fresh Storage.empty)).requests.length = 1 ∧
      (Signup.handleSubmit demoPlatform (answering studentBody)
        { Signup.emptyForm with username := "bob", password := "secret1" }
        (Page.fresh Storage.empty)).storage "token" = some "tok" :=
  ⟨rfl, rfl, rfl, rfl, rfl⟩

/-- Claim C7, the code at the failing input: for a filled Signup form the one
request of `handleSubmit` goes to the base URL followed by `/auth/login`, and
its body is the whole form, `confirmPassword` included. -/
theorem signup_posts_to_login :
    (Signup.handleSubmit demoPlatform (answering studentBody) bobSignup
        (Page.fresh Storage.empty)).requests
      = [{ url := "http://localhost:5000/api/auth/login"
           body := [("username", "bob"), ("email", "bob@example.org"),
             ("password", "secret1"), ("confirmPassword", "secret1"),
             ("firstName", "Bob"), ("lastName", "Ray"), ("bio", ""),
             ("role", "student")]
           headers := [("Content-Type", "application/json")]
           timeout := some 10000 }] :=
  rfl

/-- Claim C8. When the server answers a filled Login form or a filled Signup
form with a success status and a body whose `token` or whose `user` is missing,
`null` or empty, `handleSubmit` fails closed: the storage is as before, no event
is dispatched, no timer is set, no navigation is made, and the error message is
not empty. -/
theorem malformed_response_fails_closed (P : Platform) (env : Env) (data : JValue)
    (login : LoginForm) (signup : SignupForm) (pg : Page)
    (hl : login.filled) (hs : signup.filled)
    (hanswerL : env.server (Login.request env login) = Except.ok data)
    (hanswerS : env.server (Signup.request env signup) = Except.ok data)
    (hlack : (getPropOpt data "token").lacking ∨ (getPropOpt data "user").lacking) :
    Page.failedClosed pg (Login.handleSubmit P env login pg) ∧
      Page.failedClosed pg (Signup.handleSubmit P env signup pg) := by
  have h : (getPropOpt data "token").truthy = false ∨ (getPropOpt data "user").truthy = false :=
    hlack.imp (JValue.lacking_falsy _) (JValue.lacking_falsy _)
  constructor
  · obtain ⟨m, hm, hr⟩ := Login.login_handleSubmit_rejected P env login data pg hl hanswerL h
    rw [hr]
    exact ⟨rfl, rfl, rfl, rfl, m, rfl, hm⟩
  · rw [Signup.signup_handleSubmit_rejected P env signup data pg hs hanswerS h]
    exact ⟨rfl, rfl, rfl, rfl, "Login failed. Please try again.", rfl, by decide⟩

/-- Claim C8, at a body with a token and no user. -/
theorem malformed_response_fails_closed_witness :
    Page.failedClosed (Page.fresh Storage.empty)
        (Login.handleSubmit demoPlatform
          (answering (JValue.obj [("token", JValue.str "tok")])) aliceLogin
          (Page.fresh Storage.empty)) ∧
      Page.failedClosed (Page.fresh Storage.empty)
        (Signup.handleSubmit demoPlatform
          (answering (JValue.obj [("token", JValue.str "tok")])) bobSignup
          (Page.fresh Storage.empty)) :=
  malformed_response_fails_closed demoPlatform
    (answering (JValue.obj [("token", JValue.str "tok")]))
    (JValue.obj [("token", JValue.str "tok")]) aliceLogin bobSignup (Page.fresh Storage.empty)
    ⟨by decide, by decide⟩ ⟨by decide, by decide⟩ rfl rfl (Or.inr (Or.inl rfl))

/-- Claim C9, refuted at a concrete answer: the server answers a login with the
token `tok` and a user of role `admin`. Before the call the storage has no
`token` and no `user` entry and nothing has been dispatched; after
`handleSubmit` both entries hold the session of the answer and one `userLogin`
event has been dispatched. -/
theorem login_unknown_role_writes_session :
    (Page.fresh Storage.empty).storage "token" = none ∧
      (Page.fresh Storage.empty).storage "user" = none ∧
      (Page.fresh Storage.empty).events = [] ∧
      (Login.handleSubmit demoPlatform (answering adminBody) aliceLogin
        (Page.fresh Storage.empty)).storage "token" = some "tok" ∧
      (Login.handleSubmit demoPlatform (answering adminBody) aliceLogin
        (Page.fresh Storage.empty)).storage "user" = some (roleJson "admin") ∧
      (Login.handleSubmit demoPlatform (answering adminBody) aliceLogin
        (Page.fresh Storage.empty)).events
        = [("userLogin", JValue.obj [("role", JValue.str "admin")])] :=
  ⟨rfl, rfl, rfl, rfl, rfl, rfl⟩

/-- Claim C9, as the code has it. When the server answers a filled Login form
with a truthy `token` and a `user` whose role is neither `student` nor
`instructor`, over a storage medium that takes the two writes and a page with
no timer left from before, `handleSubmit` writes the session (the `token` entry
is the token as a string, the `user` entry is `JSON.stringify(user)`) and
dispatches one `userLogin` event; when its timer fires no navigation is made,
the unknown-role message is set, and the session stays written. -/
theorem login_unknown_role_session_kept (P : Platform) (env : Env) (form : LoginForm)
    (data token user : JValue) (pg : Page)
    (hf : form.filled)
    (hanswer : env.server (Login.request env form) = Except.ok data)
    (ht : getProp P data "token" = Except.ok token)
    (hu : getProp P data "user" = Except.ok user)
    (htt : token.truthy = true) (hut : user.truthy = true)
    (hr1 : getPropOpt user "role" ≠ JValue.str "instructor")
    (hr2 : getPropOpt user "role" ≠ JValue.str "student")
    (ha1 : env.accepts "token" (P.toStr token) = true)
    (ha2 : env.accepts "user" (P.stringify user) = true)
    (hidle : pg.timers = []) :
    (Login.handleSubmit P env form pg).storage
        = (pg.storage.put "token" (P.toStr token)).put "user" (P.stringify user) ∧
      (Login.handleSubmit P env form pg).events = pg.events ++ [("userLogin", user)] ∧
      (Login.submit P env form pg).storage
        = (pg.storage.put "token" (P.toStr token)).put "user" (P.stringify user) ∧
      (Login.submit P env form pg).events = pg.events ++ [("userLogin", user)] ∧
      (Login.submit P env form pg).navigations = pg.navigations ∧
      (Login.submit P env form pg).error
        = JValue.str "Unknown user role. Please contact support." := by
  have hs := Login.login_handleSubmit_stored P env form data token user pg hf hanswer ht hu htt hut
    ha1 ha2
  have hsub : Login.submit P env form pg =
      Page.setError (JValue.str "Unknown user role. Please contact support.")
        { Login.handleSubmit P env form pg with timers := [] } := by
    simp only [Login.submit, Login.runTimers]
    rw [hs]
    simp only [hidle, List.nil_append, List.foldl_cons, List.foldl_nil]
    exact (Login.loginTimer_decision user _).2.2 hr1 hr2
  rw [hsub, hs]
  exact ⟨rfl, rfl, rfl, rfl, rfl, rfl⟩

/-- Claim C9 as the code has it, at the answer with a user of role `admin`. -/
theorem login_unknown_role_session_kept_witness :
    (Login.handleSubmit demoPlatform (answering adminBody) aliceLogin
        (Page.fresh Storage.empty)).storage
        = ((Page.fresh Storage.empty).storage.put "token"
            (demoPlatform.toStr (JValue.str "tok"))).put "user"
            (demoPlatform.stringify (JValue.obj [("role", JValue.str "admin")])) ∧
      (Login.handleSubmit demoPlatform (answering adminBody) aliceLogin
        (Page.fresh Storage.empty)).events
        = (Page.fresh Storage.empty).events
          ++ [("userLogin", JValue.obj [("role", JValue.str "admin")])] ∧
      (Login.submit demoPlatform (answering adminBody) aliceLogin
        (Page.fresh Storage.empty)).storage
        = ((Page.fresh Storage.empty).storage.put "token"
            (demoPlatform.toStr (JValue.str "tok"))).put "user"
            (demoPlatform.stringify (JValue.obj [("role", JValue.str "admin")])) ∧
      (Login.submit demoPlatform (answering adminBody) aliceLogin
        (Page.fresh Storage.empty)).events
        = (Page.fresh Storage.empty).events
          ++ [("userLogin", JValue.obj [("role", JValue.str "admin")])] ∧
      (Login.submit demoPlatform (answering adminBody) aliceLogin
        (Page.fresh Storage.empty)).navigations = (Page.fresh Storage.empty).navigations ∧
      (Login.submit demoPlatform (answering adminBody) aliceLogin
        (Page.fresh Storage.empty)).error
        = JValue.str "Unknown user role. Please contact support." :=
  login_unknown_role_session_kept demoPlatform (answering adminBody) aliceLogin adminBody
    (JValue.str "tok") (JValue.obj [("role", JValue.str "admin")]) (Page.fresh Storage.empty)
    ⟨by decide, by decide⟩ rfl rfl rfl rfl rfl
    (by simp [getPropOpt]) (by simp [getPropOpt]) rfl rfl rfl

/-- The `role` read from a profile object is its role. -/
theorem Profile.getProp_role (P : Platform) (profile : Profile) :
    getProp P profile.toJValue "role" = Except.ok (JValue.str profile.role) :=
  rfl

/-- Claim C10. The server answers a filled Login form with a body whose `token`
is a non-empty string and whose `user` is a profile
`{id, username, role, displayName, email}`; the storage
medium takes the two writes; `JSON.parse` reads back what `JSON.stringify` wrote
for this profile. Then after `handleSubmit` the `token` entry is the token, the
`user` entry parses to the profile, and `checkAuth` of a gate whose
`requiredRole` is the role of the profile resolves authorized, from every
state of the gate. -/
theorem login_session_round_trip (P : Platform) (env : Env) (form : LoginForm)
    (data : JValue) (token : String) (profile : Profile) (pg : Page)
    (hf : form.filled)
    (hanswer : env.server (Login.request env form) = Except.ok data)
    (ht : getProp P data "token" = Except.ok (JValue.str token))
    (hu : getProp P data "user" = Except.ok profile.toJValue)
    (hne : token ≠ "")
    (ha1 : env.accepts "token" token = true)
    (ha2 : env.accepts "user" (P.stringify profile.toJValue) = true)
    (hjson : P.parse (P.stringify profile.toJValue) = some profile.toJValue) :
    (Login.handleSubmit P env form pg).storage "token" = some token ∧
      ((Login.handleSubmit P env form pg).storage "user").bind P.parse
        = some profile.toJValue ∧
      ∀ s : GateState,
        ProtectedRoute.checkAuth P (some profile.role)
            (Login.handleSubmit P env form pg).storage s
          = ({ isAuthorized := some true, isLoading := false }, none) := by
  have hs := Login.login_handleSubmit_stored P env form data (JValue.str token) profile.toJValue pg
    hf hanswer ht hu (by simpa [JValue.truthy] using hne) rfl
    (by rw [P.toStr_str]; exact ha1) ha2
  rw [P.toStr_str] at hs
  have htok : (Login.handleSubmit P env form pg).storage "token" = some token := by
    rw [hs]
    simp [Storage.put]
  have huser : (Login.handleSubmit P env form pg).storage "user"
      = some (P.stringify profile.toJValue) := by
    rw [hs]
    simp [Storage.put]
  refine ⟨htok, by rw [huser]; exact hjson, fun s => ?_⟩
  have hp := ProtectedRoute.parsed_entry_present P _ _ hjson
  rw [ProtectedRoute.checkAuth_of_entries P (some profile.role) _ s token
    (P.stringify profile.toJValue) htok hne huser hp.1 hp.2, hjson]
  by_cases hr : profile.role = ""
  · simp [ProtectedRoute.roleMismatch, hr]
  · simp [ProtectedRoute.roleMismatch, hr, Profile.getProp_role, JValue.strictEqStr]

/-- Claim C10, at the profile `alice` with the token `tok`. -/
theorem login_session_round_trip_witness :
    (Login.handleSubmit demoPlatform (answering (sessionBody (JValue.str "tok") alice.toJValue))
        aliceLogin (Page.fresh Storage.empty)).storage "token" = some "tok" ∧
      ((Login.handleSubmit demoPlatform
          (answering (sessionBody (JValue.str "tok") alice.toJValue))
          aliceLogin (Page.fresh Storage.empty)).storage "user").bind demoPlatform.parse
        = some alice.toJValue ∧
      ∀ s : GateState,
        ProtectedRoute.checkAuth demoPlatform (some alice.role)
            (Login.handleSubmit demoPlatform
              (answering (sessionBody (JValue.str "tok") alice.toJValue))
              aliceLogin (Page.fresh Storage.empty)).storage s
          = ({ isAuthorized := some true, isLoading := false }, none) :=
  login_session_round_trip demoPlatform
    (answering (sessionBody (JValue.str "tok") alice.toJValue)) aliceLogin
    (sessionBody (JValue.str "tok") alice.toJValue) "tok" alice
    (Page.fresh Storage.empty) ⟨by decide, by decide⟩ rfl rfl rfl (by decide) rfl rfl rfl

/-! ## Theorems: the two writes of a session -/

/-- The page after `handleSubmit` of the Login page when the medium rejects the
write of `token`: nothing is written, the error of the medium is caught. -/
theorem Login.login_handleSubmit_first_write_rejected (P : Platform) (env : Env)
    (form : LoginForm) (data token user : JValue) (pg : Page)
    (hf : form.filled)
    (hanswer : env.server (Login.request env form) = Except.ok data)
    (ht : getProp P data "token" = Except.ok token)
    (hu : getProp P data "user" = Except.ok user)
    (htt : token.truthy = true) (hut : user.truthy = true)
    (ha1 : env.accepts "token" (P.toStr token) = false) :
    Login.handleSubmit P env form pg =
      { pg with
        error := (JValue.str P.quotaErrorMessage).orElse
          (JValue.str "Login failed. Please try again.")
        isLoading := false
        requests := pg.requests ++ [Login.request env form] } := by
  simp only [Login.handleSubmit, Login.login_guard_of_filled form hf, Login.tryBlock, hanswer,
    storeSession, ht, hu, htt, hut, setItem, ha1, Bool.not_true, Bool.or_self,
    Bool.false_eq_true, if_false]
  simp [Login.catchBlock, JValue.orElse, JValue.truthy, Page.setError, Page.setIsLoading]

/-- The page after `handleSubmit` of the Login page when the medium takes the
write of `token` and rejects the write of `user`: the `token` entry is written
and stays, the error of the medium is caught. -/
theorem Login.login_handleSubmit_second_write_rejected (P : Platform) (env : Env)
    (form : LoginForm) (data token user : JValue) (pg : Page)
    (hf : form.filled)
    (hanswer : env.server (Login.request env form) = Except.ok data)
    (ht : getProp P data "token" = Except.ok token)
    (hu : getProp P data "user" = Except.ok user)
    (htt : token.truthy = true) (hut : user.truthy = true)
    (ha1 : env.accepts "token" (P.toStr token) = true)
    (ha2 : env.accepts "user" (P.stringify user) = false) :
    Login.handleSubmit P env form pg =
      { pg with
        error := (JValue.str P.quotaErrorMessage).orElse
          (JValue.str "Login failed. Please try again.")
        isLoading := false
        storage := pg.storage.put "token" (P.toStr token)
        requests := pg.requests ++ [Login.request env form] } := by
  simp only [Login.handleSubmit, Login.login_guard_of_filled form hf, Login.tryBlock, hanswer,
    storeSession, ht, hu, htt, hut, setItem, ha1, ha2, Bool.not_true, Bool.or_self,
    Bool.false_eq_true, if_false, if_true]
  simp [Login.catchBlock, JValue.orElse, JValue.truthy, Page.setError, Page.setIsLoading]

/-- The message the Login page shows for a rejected write is not empty. -/
theorem quota_message_shown (P : Platform) :
    ∃ m : String, (JValue.str P.quotaErrorMessage).orElse
        (JValue.str "Login failed. Please try again.") = JValue.str m ∧ m ≠ "" := by
  by_cases h : P.quotaErrorMessage = ""
  · exact ⟨"Login failed. Please try again.", by simp [JValue.orElse, JValue.truthy, h],
      by decide⟩
  · exact ⟨P.quotaErrorMessage, by simp [JValue.orElse, JValue.truthy, h], h⟩

/-- Claim C11, refuted at a concrete medium: the storage is empty, the medium
takes the write of `token` and rejects the write of `user`, and the server
answers the login with the token `tok` and a student. After `handleSubmit` the
login is reported as failed (the error of the medium is shown, no event, no
timer), the `token` entry holds the new token and there is no `user` entry:
the credential is present without the profile. -/
theorem login_write_not_atomic :
    (Page.fresh Storage.empty).storage "token" = none ∧
      (Login.handleSubmit demoPlatform (answeringOverFullStorage studentBody) aliceLogin
        (Page.fresh Storage.empty)).storage "token" = some "tok" ∧
      (Login.handleSubmit demoPlatform (answeringOverFullStorage studentBody) aliceLogin
        (Page.fresh Storage.empty)).storage "user" = none ∧
      (Login.handleSubmit demoPlatform (answeringOverFullStorage studentBody) aliceLogin
        (Page.fresh Storage.empty)).error = JValue.str "The quota has been exceeded." ∧
      (Login.handleSubmit demoPlatform (answeringOverFullStorage studentBody) aliceLogin
        (Page.fresh Storage.empty)).events = [] ∧
      (Login.handleSubmit demoPlatform (answeringOverFullStorage studentBody) aliceLogin
        (Page.fresh Storage.empty)).timers = [] :=
  ⟨rfl, rfl, rfl, rfl, rfl, rfl⟩

/-- Claim C11, as the code has it. The server answers a filled Login form with
a truthy `token` and a truthy `user`, and the medium may reject each `setItem`
call. The two writes are made one after the other and nothing is rolled back:
if the write of `token` is rejected, the storage is unchanged and the page has
failed closed; if the write of `token` is taken and the write of `user` is
rejected, the `token` entry holds the new token, every other entry (the `user`
entry too) is as before, no event is dispatched, no timer is set and a
non-empty error is shown; if both writes are taken, both entries hold the new
session and `userLogin` is dispatched. -/
theorem login_write_stepwise (P : Platform) (env : Env) (form : LoginForm)
    (data token user : JValue) (pg : Page)
    (hf : form.filled)
    (hanswer : env.server (Login.request env form) = Except.ok data)
    (ht : getProp P data "token" = Except.ok token)
    (hu : getProp P data "user" = Except.ok user)
    (htt : token.truthy = true) (hut : user.truthy = true) :
    (env.accepts "token" (P.toStr token) = false →
        Page.failedClosed pg (Login.handleSubmit P env form pg)) ∧
      (env.accepts "token" (P.toStr token) = true →
        env.accepts "user" (P.stringify user) = false →
        (Login.handleSubmit P env form pg).storage = pg.storage.put "token" (P.toStr token) ∧
        (Login.handleSubmit P env form pg).storage "token" = some (P.toStr token) ∧
        (Login.handleSubmit P env form pg).storage "user" = pg.storage "user" ∧
        (Login.handleSubmit P env form pg).events = pg.events ∧
        (Login.handleSubmit P env form pg).timers = pg.timers ∧
        (Login.handleSubmit P env form pg).navigations = pg.navigations ∧
        ∃ m : String, (Login.handleSubmit P env form pg).error = JValue.str m ∧ m ≠ "") ∧
      (env.accepts "token" (P.toStr token) = true →
        env.accepts "user" (P.stringify user) = true →
        (Login.handleSubmit P env form pg).storage
          = (pg.storage.put "token" (P.toStr token)).put "user" (P.stringify user) ∧
        (Login.handleSubmit P env form pg).events = pg.events ++ [("userLogin", user)] ∧
        (Login.handleSubmit P env form pg).error = JValue.str "") := by
  refine ⟨fun h1 => ?_, fun h1 h2 => ?_, fun h1 h2 => ?_⟩
  · rw [Login.login_handleSubmit_first_write_rejected P env form data token user pg hf hanswer
      ht hu htt hut h1]
    exact ⟨rfl, rfl, rfl, rfl, quota_message_shown P⟩
  · rw [Login.login_handleSubmit_second_write_rejected P env form data token user pg hf hanswer
      ht hu htt hut h1 h2]
    refine ⟨rfl, ?_, ?_, rfl, rfl, rfl, quota_message_shown P⟩
    · simp [Storage.put]
    · simp [Storage.put]
  · rw [Login.login_handleSubmit_stored P env form data token user pg hf hanswer ht hu htt hut
      h1 h2]
    exact ⟨rfl, rfl, rfl⟩

/-- Claim C11 as the code has it, at the medium that takes `token` and rejects
`user`, and at the medium that takes both. -/
theorem login_write_stepwise_witness :
    ((Login.handleSubmit demoPlatform (answeringOverFullStorage studentBody) aliceLogin
          (Page.fresh Storage.empty)).storage
        = (Page.fresh Storage.empty).storage.put "token" (demoPlatform.toStr (JValue.str "tok")) ∧
      (Login.handleSubmit demoPlatform (answeringOverFullStorage studentBody) aliceLogin
          (Page.fresh Storage.empty)).storage "token"
        = some (demoPlatform.toStr (JValue.str "tok")) ∧
      (Login.handleSubmit demoPlatform (answeringOverFullStorage studentBody) aliceLogin
          (Page.fresh Storage.empty)).storage "user" = (Page.fresh Storage.empty).storage "user" ∧
      (Login.handleSubmit demoPlatform (answeringOverFullStorage studentBody) aliceLogin
          (Page.fresh Storage.empty)).events = (Page.fresh Storage.empty).events ∧
      (Login.handleSubmit demoPlatform (answeringOverFullStorage studentBody) aliceLogin
          (Page.fresh Storage.empty)).timers = (Page.fresh Storage.empty).timers ∧
      (Login.handleSubmit demoPlatform (answeringOverFullStorage studentBody) aliceLogin
          (Page.fresh Storage.empty)).navigations = (Page.fresh Storage.empty).navigations ∧
      ∃ m : String, (Login.handleSubmit demoPlatform (answeringOverFullStorage studentBody)
          aliceLogin (Page.fresh Storage.empty)).error = JValue.str m ∧ m ≠ "") ∧
    ((Login.handleSubmit demoPlatform (answering studentBody) aliceLogin
          (Page.fresh Storage.empty)).storage
        = ((Page.fresh Storage.empty).storage.put "token"
            (demoPlatform.toStr (JValue.str "tok"))).put "user"
            (demoPlatform.stringify (JValue.obj [("role", JValue.str "student")])) ∧
      (Login.handleSubmit demoPlatform (answering studentBody) aliceLogin
          (Page.fresh Storage.empty)).events
        = (Page.fresh Storage.empty).events
          ++ [("userLogin", JValue.obj [("role", JValue.str "student")])] ∧
      (Login.handleSubmit demoPlatform (answering studentBody) aliceLogin
          (Page.fresh Storage.empty)).error = JValue.str "") :=
  ⟨(login_write_stepwise demoPlatform (answeringOverFullStorage studentBody) aliceLogin
      studentBody (JValue.str "tok") (JValue.obj [("role", JValue.str "student")])
      (Page.fresh Storage.empty) ⟨by decide, by decide⟩ rfl rfl rfl rfl rfl).2.1 rfl rfl,
   (login_write_stepwise demoPlatform (answering studentBody) aliceLogin
      studentBody (JValue.str "tok") (JValue.obj [("role", JValue.str "student")])
      (Page.fresh Storage.empty) ⟨by decide, by decide⟩ rfl rfl rfl rfl rfl).2.2 rfl rfl⟩

/-! ## Theorems: the health check -/

/-- Claim C12. For the connection states 0, 1, 2, 3 the `/health` handler
answers 200 with `database` equal to `disconnected`, `connected`,
`connecting`, `disconnecting`, and with `atlas_connection` equal to `active`
for state 1 and `inactive` for the others; for every state `atlas_connection`
is `active` exactly when the state is 1; and the handler leaves the process as
it found it: the connection state is only read, no attempt is started and no
timer is set. -/
theorem health_reports_state (now : String) (conn : ConnState) :
    (healthHandler now { readyState := 0, conn := conn }).2
        = (200, { status := "Server is running", database := "disconnected",
                  atlas_connection := "inactive", timestamp := now }) ∧
      (healthHandler now { readyState := 1, conn := conn }).2
        = (200, { status := "Server is running", database := "connected",
                  atlas_connection := "active", timestamp := now }) ∧
      (healthHandler now { readyState := 2, conn := conn }).2
        = (200, { status := "Server is running", database := "connecting",
                  atlas_connection := "inactive", timestamp := now }) ∧
      (healthHandler now { readyState := 3, conn := conn }).2
        = (200, { status := "Server is running", database := "disconnecting",
                  atlas_connection := "inactive", timestamp := now }) ∧
      (∀ sv : Server, (healthHandler now sv).2.2.atlas_connection = "active" ↔
        sv.readyState = 1) ∧
      (∀ sv : Server, (healthHandler now sv).1 = sv ∧
        (healthHandler now sv).1.conn.attempts = sv.conn.attempts ∧
        (healthHandler now sv).1.conn.inFlight = sv.conn.inFlight ∧
        (healthHandler now sv).1.conn.timers = sv.conn.timers) := by
  refine ⟨rfl, rfl, rfl, rfl, fun sv => ?_, fun sv => ⟨rfl, rfl, rfl, rfl⟩⟩
  by_cases h : sv.readyState = 1
  · simp [healthHandler, h]
  · simp [healthHandler, h]

/-! ## Theorems: the retry loop -/

namespace ConnState

/-- Running a sequence of events and then another is running their
concatenation. -/
theorem run_append (uri : Option String) (s : ConnState) (first later : List ConnEvent) :
    run uri s (first ++ later) = (run uri s first).bind (fun t => run uri t later) := by
  induction first generalizing s with
  | nil => rfl
  | cons ev rest ih =>
    simp only [List.cons_append, run]
    cases step uri s ev with
    | none => rfl
    | some t => exact ih t

/-- From a state with one attempt awaited and no timer, rounds of failure and
retry all take place and lead to such a state again, with one more call of
`connectToAtlas` per round. -/
theorem run_failedRounds (uri : Option String) (messages : List String) (s : ConnState)
    (hin : s.inFlight = 1) (htm : s.timers = []) :
    ∃ t, run uri s (failedRounds messages) = some t ∧
      t.attempts = s.attempts + messages.length ∧ t.inFlight = 1 ∧ t.timers = [] := by
  induction messages generalizing s with
  | nil => exact ⟨s, rfl, rfl, hin, htm⟩
  | cons message rest ih =>
    have hstep : run uri s (failedRounds (message :: rest)) =
        run uri (connectToAtlas
          { connectToAtlas.rejected uri message s with timers := [] })
          (failedRounds rest) := by
      have hcons : failedRounds (message :: rest)
          = ConnEvent.fails message :: ConnEvent.timerFires :: failedRounds rest := by
        simp [failedRounds]
      rw [hcons]
      simp [run, step, hin, connectToAtlas.rejected, htm]
    obtain ⟨t, ht, ha, hi, htt⟩ := ih
      (connectToAtlas { connectToAtlas.rejected uri message s with timers := [] })
      (by simp [connectToAtlas, connectToAtlas.rejected, hin]) rfl
    refine ⟨t, hstep.trans ht, ?_, hi, htt⟩
    rw [ha]
    simp [connectToAtlas, connectToAtlas.rejected]
    omega

/-- Each event keeps the number of awaited attempts plus the number of pending
timers at one or less. -/
theorem step_bound (uri : Option String) (s t : ConnState) (ev : ConnEvent)
    (h : step uri s ev = some t) (hs : s.inFlight + s.timers.length ≤ 1) :
    t.inFlight + t.timers.length ≤ 1 := by
  cases ev with
  | fails message =>
    by_cases h0 : s.inFlight = 0
    · simp [step, h0] at h
    · simp only [step, h0, if_false, Option.some.injEq] at h
      subst h
      simp [connectToAtlas.rejected]
      omega
  | succeeds =>
    by_cases h0 : s.inFlight = 0
    · simp [step, h0] at h
    · simp only [step, h0, if_false, Option.some.injEq] at h
      subst h
      simp [connectToAtlas.fulfilled]
      omega
  | timerFires =>
    cases htm : s.timers with
    | nil => simp [step, htm] at h
    | cons d later =>
      simp only [step, htm, Option.some.injEq] at h
      subst h
      simp [htm] at hs
      simp [connectToAtlas]
      omega

/-- Every sequence of events keeps the bound. -/
theorem run_bound (uri : Option String) (events : List ConnEvent) (s t : ConnState)
    (h : run uri s events = some t) (hs : s.inFlight + s.timers.length ≤ 1) :
    t.inFlight + t.timers.length ≤ 1 := by
  induction events generalizing s with
  | nil =>
    simp only [run, Option.some.injEq] at h
    subst h
    exact hs
  | cons ev later ih =>
    simp only [run] at h
    cases hstep : step uri s ev with
    | none => simp [hstep] at h
    | some u =>
      rw [hstep] at h
      exact ih u h (step_bound uri s u ev hstep hs)

end ConnState

/-- Claim C14. In the step model of `connectToAtlas`, started once when the
process starts and afterwards only by its own timer: a failed attempt sets
exactly one timer, of 5000 ms, and a successful attempt sets none; after `n`
consecutive failures, whatever `n`, each retry having fired, attempt `n + 1`
is in flight with no timer pending, and a further failure leaves exactly one
timer of 5000 ms pending; and in every reachable state at most one attempt is
in flight and at most one timer is pending. -/
theorem retry_schedule (uri : Option String) :
    (∀ (message : String) (s : ConnState),
        (connectToAtlas.rejected uri message s).timers = s.timers ++ [5000] ∧
        (connectToAtlas.fulfilled s).timers = s.timers) ∧
      (∀ messages : List String,
        ∃ t, ConnState.run uri ConnState.boot (failedRounds messages) = some t ∧
          t.attempts = messages.length + 1 ∧ t.inFlight = 1 ∧ t.timers = []) ∧
      (∀ (messages : List String) (message : String),
        ∃ t, ConnState.run uri ConnState.boot
            (failedRounds messages ++ [ConnEvent.fails message]) = some t ∧
          t.attempts = messages.length + 1 ∧ t.inFlight = 0 ∧ t.timers = [5000]) ∧
      (∀ (events : List ConnEvent) (t : ConnState),
        ConnState.run uri ConnState.boot events = some t →
        t.inFlight ≤ 1 ∧ t.timers.length ≤ 1) := by
  refine ⟨fun message s => ⟨rfl, rfl⟩, fun messages => ?_, fun messages message => ?_,
    fun events t h => ?_⟩
  · obtain ⟨t, ht, ha, hi, htm⟩ :=
      ConnState.run_failedRounds uri messages ConnState.boot rfl rfl
    exact ⟨t, ht, by rw [ha]; simp [ConnState.boot, connectToAtlas]; omega, hi, htm⟩
  · obtain ⟨t, ht, ha, hi, htm⟩ :=
      ConnState.run_failedRounds uri messages ConnState.boot rfl rfl
    refine ⟨connectToAtlas.rejected uri message t, ?_, ?_, ?_, ?_⟩
    · rw [ConnState.run_append, ht]
      simp [ConnState.run, ConnState.step, hi]
    · simp [connectToAtlas.rejected, ha, ConnState.boot, connectToAtlas]
      omega
    · simp [connectToAtlas.rejected, hi]
    · simp [connectToAtlas.rejected, htm]
  · have hb := ConnState.run_bound uri events ConnState.boot t h (by decide)
    omega

/-- Claim C14, at three failures in a row followed by a success: every event
takes place, and in the state reached at most one attempt is in flight and at
most one timer is pending. -/
theorem retry_schedule_witness :
    ∃ t, ConnState.run none ConnState.boot
        (failedRounds ["e1", "e2", "e3"] ++ [ConnEvent.succeeds]) = some t ∧
      t.inFlight ≤ 1 ∧ t.timers.length ≤ 1 := by
  obtain ⟨t, ht⟩ := Option.isSome_iff_exists.1
    (by decide : (ConnState.run none ConnState.boot
      (failedRounds ["e1", "e2", "e3"] ++ [ConnEvent.succeeds])).isSome = true)
  exact ⟨t, ht, (retry_schedule none).2.2.2 _ t ht⟩

/-! ## Theorems: the redaction of the connection string -/

/-- The characters `/`, `:` and `@` are not line terminators. -/
theorem punctuation_not_terminator :
    isLineTerminator '/' = false ∧ isLineTerminator ':' = false ∧
      isLineTerminator '@' = false := by
  decide

/-- The first line of a text that starts with a character that is not a line
terminator. -/
theorem firstLine_cons (c : Char) (cs : List Char) (h : isLineTerminator c = false) :
    firstLine (c :: cs) = c :: firstLine cs := by
  simp [firstLine, List.takeWhile, h]

/-- A text whose first line has no `@` is kept whole. -/
theorem keptTail_of_no_at (text : List Char) (h : '@' ∉ firstLine text) :
    keptTail text = text := by
  cases text with
  | nil => rfl
  | cons c cs =>
    by_cases hc : isLineTerminator c = true
    · simp [keptTail, hc]
    · have hc2 : isLineTerminator c = false := by simpa using hc
      rw [firstLine_cons c cs hc2] at h
      simp only [List.mem_cons, not_or] at h
      have h1 : c ≠ '@' := fun e => h.1 e.symm
      simp [keptTail, hc2, h.2, h1]

/-- The atom `.*` does not take a line terminator. -/
theorem matchStar_terminator (next : List Char → Option (List Char)) (c : Char)
    (cs : List Char) (h : isLineTerminator c = true) :
    matchStar next (c :: cs) = next (c :: cs) := by
  simp [matchStar, h]

/-- The atom `.*` takes a character when what follows matches after it. -/
theorem matchStar_cons_some (next : List Char → Option (List Char)) (c : Char)
    (cs rest : List Char) (h : isLineTerminator c = false)
    (hm : matchStar next cs = some rest) :
    matchStar next (c :: cs) = some rest := by
  simp [matchStar, h, hm]

/-- The atom `.*` gives a character back when nothing matches after it. -/
theorem matchStar_cons_none (next : List Char → Option (List Char)) (c : Char)
    (cs : List Char) (h : isLineTerminator c = false) (hm : matchStar next cs = none) :
    matchStar next (c :: cs) = next (c :: cs) := by
  simp [matchStar, h, hm]

/-- The atom `@` at the start of a text. -/
theorem matchHere_at (c : Char) (cs : List Char) :
    matchHere [Atom.lit '@'] (c :: cs) = if c = '@' then some cs else none := by
  simp [matchHere]

/-- The atoms `:.*@` at the start of a text. -/
theorem matchHere_colon (c : Char) (cs : List Char) :
    matchHere [Atom.lit ':', Atom.anyStar, Atom.lit '@'] (c :: cs)
      = if c = ':' then matchStar (matchHere [Atom.lit '@']) cs else none := by
  by_cases h : c = ':'
  · subst h
    simp only [matchHere, if_true]
  · simp [matchHere, h]

/-- The atoms `.*@` at the start of a text: the match ends with the last `@` of
the first line. -/
theorem matchStar_at (text : List Char) :
    matchStar (matchHere [Atom.lit '@']) text
      = if '@' ∈ firstLine text then some (keptTail text) else none := by
  induction text with
  | nil => simp [matchStar, matchHere, firstLine]
  | cons c cs ih =>
    by_cases hc : isLineTerminator c = true
    · have hne : c ≠ '@' := by
        intro e
        rw [e] at hc
        exact absurd hc (by decide)
      rw [matchStar_terminator _ c cs hc, matchHere_at]
      simp [hne, firstLine, List.takeWhile, hc]
    · have hc2 : isLineTerminator c = false := by simpa using hc
      rw [firstLine_cons c cs hc2]
      by_cases hat : '@' ∈ firstLine cs
      · rw [if_pos hat] at ih
        rw [matchStar_cons_some _ c cs _ hc2 ih]
        simp [hat, keptTail, hc2]
      · rw [if_neg hat] at ih
        rw [matchStar_cons_none _ c cs hc2 ih, matchHere_at]
        by_cases hce : c = '@'
        · subst hce
          simp [hat, keptTail, hc2]
        · have hce2 : ¬ '@' = c := fun e => hce e.symm
          simp [hat, hce, hce2]

/-- The atoms `.*@` at the start of a text made of characters of one line, an
`@`, and `rest`. -/
theorem matchStar_at_credentials (password rest : List Char)
    (hp : ∀ c ∈ password, isLineTerminator c = false) :
    matchStar (matchHere [Atom.lit '@']) (password ++ '@' :: rest) = some (keptTail rest) := by
  induction password with
  | nil =>
    have hat : isLineTerminator '@' = false := by decide
    rw [List.nil_append]
    by_cases h : '@' ∈ firstLine rest
    · have hm := matchStar_at rest
      rw [if_pos h] at hm
      exact matchStar_cons_some _ '@' rest _ hat hm
    · have hm := matchStar_at rest
      rw [if_neg h] at hm
      rw [matchStar_cons_none _ '@' rest hat hm, matchHere_at, if_pos rfl,
        keptTail_of_no_at rest h]
  | cons c cs ih =>
    have hc : isLineTerminator c = false := hp c (List.mem_cons_self c cs)
    have hrest := ih (fun d hd => hp d (List.mem_cons_of_mem c hd))
    rw [List.cons_append]
    exact matchStar_cons_some _ c _ _ hc hrest

/-- Where the atoms `.*:.*@` match, the atoms `.*@` match with the same
remainder. -/
theorem matchStar_colon_at (text rest : List Char)
    (h : matchStar (matchHere [Atom.lit ':', Atom.anyStar, Atom.lit '@']) text = some rest) :
    matchStar (matchHere [Atom.lit '@']) text = some rest := by
  induction text with
  | nil => simp [matchStar, matchHere] at h
  | cons c cs ih =>
    by_cases hc : isLineTerminator c = true
    · have hne : c ≠ ':' := by
        intro e
        rw [e] at hc
        exact absurd hc (by decide)
      rw [matchStar_terminator _ c cs hc, matchHere_colon, if_neg hne] at h
      exact Option.noConfusion h
    · have hc2 : isLineTerminator c = false := by simpa using hc
      cases hin : matchStar (matchHere [Atom.lit ':', Atom.anyStar, Atom.lit '@']) cs with
      | some r =>
        rw [matchStar_cons_some _ c cs r hc2 hin] at h
        exact matchStar_cons_some _ c cs rest hc2 (ih (hin.trans h))
      | none =>
        rw [matchStar_cons_none _ c cs hc2 hin, matchHere_colon] at h
        by_cases hce : c = ':'
        · rw [if_pos hce] at h
          exact matchStar_cons_some _ c cs rest hc2 h
        · rw [if_neg hce] at h
          exact Option.noConfusion h

/-- The atoms `.*:.*@` at the start of a text made of characters of one line,
a `:`, and a text where `.*@` matches. -/
theorem matchStar_credentials (user text rest : List Char)
    (hu : ∀ c ∈ user, isLineTerminator c = false)
    (h : matchStar (matchHere [Atom.lit '@']) text = some rest) :
    matchStar (matchHere [Atom.lit ':', Atom.anyStar, Atom.lit '@']) (user ++ ':' :: text)
      = some rest := by
  induction user with
  | nil =>
    have hcolon : isLineTerminator ':' = false := by decide
    rw [List.nil_append]
    cases hin : matchStar (matchHere [Atom.lit ':', Atom.anyStar, Atom.lit '@']) text with
    | some r =>
      have hr := matchStar_colon_at text r hin
      rw [h] at hr
      rw [matchStar_cons_some _ ':' text r hcolon hin]
      exact hr.symm
    | none =>
      rw [matchStar_cons_none _ ':' text hcolon hin, matchHere_colon, if_pos rfl]
      exact h
  | cons c cs ih =>
    have hc : isLineTerminator c = false := hu c (List.mem_cons_self c cs)
    have hrest := ih (fun d hd => hu d (List.mem_cons_of_mem c hd))
    rw [List.cons_append]
    exact matchStar_cons_some _ c _ _ hc hrest

/-- The pattern matches at the `//` in front of the credentials, up to the last
`@` of the line. -/
theorem matchHere_credentials (user password rest : List Char)
    (hu : ∀ c ∈ user, isLineTerminator c = false)
    (hp : ∀ c ∈ password, isLineTerminator c = false) :
    matchHere credentialPattern ('/' :: '/' :: (user ++ ':' :: (password ++ '@' :: rest)))
      = some (keptTail rest) := by
  simp only [credentialPattern, matchHere, if_true]
  exact matchStar_credentials user _ _ hu (matchStar_at_credentials password rest hp)

/-- The search moves on by one character where there is no match. -/
theorem replaceFirst_cons_none (atoms : List Atom) (replacement : List Char) (c : Char)
    (cs : List Char) (h : matchHere atoms (c :: cs) = none) :
    replaceFirst atoms replacement (c :: cs) = c :: replaceFirst atoms replacement cs := by
  simp [replaceFirst, h]

/-- The search stops at the first match. -/
theorem replaceFirst_cons_some (atoms : List Atom) (replacement : List Char) (c : Char)
    (cs rest : List Char) (h : matchHere atoms (c :: cs) = some rest) :
    replaceFirst atoms replacement (c :: cs) = replacement ++ rest := by
  simp [replaceFirst, h]

/-- The search for the leftmost match passes over a scheme without `/` and over
the `:` after it. -/
theorem replaceFirst_after_scheme (scheme text kept replacement : List Char)
    (hs : '/' ∉ scheme)
    (h : matchHere credentialPattern ('/' :: '/' :: text) = some kept) :
    replaceFirst credentialPattern replacement (scheme ++ ':' :: '/' :: '/' :: text)
      = scheme ++ ':' :: (replacement ++ kept) := by
  induction scheme with
  | nil =>
    have hcolon : matchHere credentialPattern (':' :: '/' :: '/' :: text) = none := by
      simp [credentialPattern, matchHere]
    rw [List.nil_append, replaceFirst_cons_none _ _ _ _ hcolon,
      replaceFirst_cons_some _ _ _ _ _ h]
    rfl
  | cons c cs ih =>
    simp only [List.mem_cons, not_or] at hs
    have hc : c ≠ '/' := fun e => hs.1 e.symm
    have hnone : matchHere credentialPattern (c :: (cs ++ ':' :: '/' :: '/' :: text)) = none := by
      simp [credentialPattern, matchHere, hc]
    rw [List.cons_append, replaceFirst_cons_none _ _ _ _ hnone, ih hs.2]
    rfl

/-- The characters of a connection descriptor. -/
theorem descriptor_toList (scheme user password rest : String) :
    (descriptor scheme user password rest).toList
      = scheme.toList ++ ':' :: '/' :: '/' ::
          (user.toList ++ ':' :: (password.toList ++ '@' :: rest.toList)) := by
  simp [descriptor, String.toList]

/-- The redaction of a connection descriptor whose scheme has no `/` and whose
user and password have no line terminator. -/
theorem redact_descriptor (scheme user password rest : String)
    (hs : '/' ∉ scheme.toList)
    (hu : ∀ c ∈ user.toList, isLineTerminator c = false)
    (hp : ∀ c ∈ password.toList, isLineTerminator c = false) :
    redact (descriptor scheme user password rest)
      = scheme ++ "://***:***@" ++ String.mk (keptTail rest.toList) := by
  have hm := matchHere_credentials user.toList password.toList rest.toList hu hp
  have hr := replaceFirst_after_scheme scheme.toList _ _ "//***:***@".toList hs hm
  rw [redact, descriptor_toList, hr]
  apply String.ext
  simp [String.toList]

/-- Claim C13. For a connection descriptor `<scheme>://<user>:<password>@<rest>`
whose scheme has no `/` and whose user and password have no line terminator
(`rest` is free), the connection string logged by the `catch` block of
`connectToAtlas` is the scheme, `://***:***@`, and the part of `rest` after the
last `@` of its first line (all of `rest` when that line has no `@`); it is the
same for every other user and password without line terminators. -/
theorem logged_connection_string_hides_credentials
    (scheme user password otherUser otherPassword rest message : String) (s : ConnState)
    (hs : '/' ∉ scheme.toList)
    (hu : ∀ c ∈ user.toList, isLineTerminator c = false)
    (hp : ∀ c ∈ password.toList, isLineTerminator c = false)
    (hu2 : ∀ c ∈ otherUser.toList, isLineTerminator c = false)
    (hp2 : ∀ c ∈ otherPassword.toList, isLineTerminator c = false) :
    (connectToAtlas.rejected (some (descriptor scheme user password rest)) message s).log
        = s.log ++
          [{ isError := true, text := "❌ MongoDB Atlas connection failed:",
             argument := some (some message) },
           { isError := true, text := "🔍 Connection string being used:",
             argument := some (some
               (scheme ++ "://***:***@" ++ String.mk (keptTail rest.toList))) },
           { isError := false, text := "🔄 Retrying Atlas connection in 5 seconds..." }] ∧
      redact (descriptor scheme user password rest)
        = scheme ++ "://***:***@" ++ String.mk (keptTail rest.toList) ∧
      redact (descriptor scheme otherUser otherPassword rest)
        = redact (descriptor scheme user password rest) ∧
      (connectToAtlas.rejected (some (descriptor scheme otherUser otherPassword rest))
          message s).log
        = (connectToAtlas.rejected (some (descriptor scheme user password rest)) message s).log
      := by
  have h1 := redact_descriptor scheme user password rest hs hu hp
  have h2 := redact_descriptor scheme otherUser otherPassword rest hs hu2 hp2
  refine ⟨?_, h1, h2.trans h1.symm, ?_⟩
  · simp [connectToAtlas.rejected, connectToAtlas.failureLines, h1]
  · simp [connectToAtlas.rejected, connectToAtlas.failureLines, h1, h2]

/-- Claim C13, at two descriptors of an Atlas cluster that differ in user and
password, with a `rest` that has a `:` and an `@` in its query. -/
theorem logged_connection_string_hides_credentials_witness :
    redact (descriptor "mongodb+srv" "admin" "hunter2" "cluster0.example.net:27017/app?by=a@b")
        = "mongodb+srv://***:***@b" ∧
      redact (descriptor "mongodb+srv" "root" "s3cret:x@y"
          "cluster0.example.net:27017/app?by=a@b")
        = redact (descriptor "mongodb+srv" "admin" "hunter2"
          "cluster0.example.net:27017/app?by=a@b") :=
  ⟨(logged_connection_string_hides_credentials "mongodb+srv" "admin" "hunter2" "root"
      "s3cret:x@y" "cluster0.example.net:27017/app?by=a@b" "timeout"
      ConnState.boot (by decide) (by decide) (by decide) (by decide) (by decide)).2.1,
   (logged_connection_string_hides_credentials "mongodb+srv" "admin" "hunter2" "root"
      "s3cret:x@y" "cluster0.example.net:27017/app?by=a@b" "timeout"
      ConnState.boot (by decide) (by decide) (by decide) (by decide) (by decide)).2.2.1⟩

end CourseLearn
